import Mathlib

/-!
Verification of the MLOps Bedrock agent Lambda sources
(`lambda_function.py`, `mlops-agent.py`, `mlops-project.py`).

The Python code is shallowly embedded: JSON-like runtime values are the
inductive `Json`, Python dictionaries (which preserve insertion order) are
association lists, and a Python function that may raise is a function into
`PyResult`, whose `exn` constructor records the state built up at the point
the exception was raised together with the exception message.  External AWS
API calls are abstracted as oracle records passed to the embedded handler;
every call issued is recorded in an explicit trace.
-/

namespace MLOps

/-- JSON-like Python runtime values (the payloads of Bedrock agent events). -/
inductive Json where
  | null
  | bool (b : Bool)
  | num (n : Int)
  | str (s : String)
  | arr (xs : List Json)
  | obj (fs : List (String × Json))

mutual

/-- Structural equality on `Json` values. -/
def Json.beq : Json → Json → Bool
  | .null, .null => true
  | .bool a, .bool b => a == b
  | .num a, .num b => a == b
  | .str a, .str b => a == b
  | .arr xs, .arr ys => Json.beqL xs ys
  | .obj fs, .obj gs => Json.beqF fs gs
  | _, _ => false

/-- Elementwise equality on JSON arrays. -/
def Json.beqL : List Json → List Json → Bool
  | [], [] => true
  | x :: xs, y :: ys => Json.beq x y && Json.beqL xs ys
  | _, _ => false

/-- Elementwise equality on JSON object field lists. -/
def Json.beqF : List (String × Json) → List (String × Json) → Bool
  | [], [] => true
  | (k, v) :: fs, (l, w) :: gs => k == l && Json.beq v w && Json.beqF fs gs
  | _, _ => false

end

mutual

theorem Json.eq_of_beq : ∀ {a b : Json}, Json.beq a b = true → a = b
  | .null, .null, _ => rfl
  | .bool _, .bool _, h => by
      simp only [Json.beq, beq_iff_eq] at h
      exact congrArg Json.bool h
  | .num _, .num _, h => by
      simp only [Json.beq, beq_iff_eq] at h
      exact congrArg Json.num h
  | .str _, .str _, h => by
      simp only [Json.beq, beq_iff_eq] at h
      exact congrArg Json.str h
  | .arr _, .arr _, h => congrArg Json.arr (Json.eqL_of_beqL h)
  | .obj _, .obj _, h => congrArg Json.obj (Json.eqF_of_beqF h)

theorem Json.eqL_of_beqL : ∀ {xs ys : List Json}, Json.beqL xs ys = true → xs = ys
  | [], [], _ => rfl
  | x :: xs, y :: ys, h => by
      simp only [Json.beqL, Bool.and_eq_true] at h
      exact congrArg₂ List.cons (Json.eq_of_beq h.1) (Json.eqL_of_beqL h.2)

theorem Json.eqF_of_beqF :
    ∀ {fs gs : List (String × Json)}, Json.beqF fs gs = true → fs = gs
  | [], [], _ => rfl
  | (k, v) :: fs, (l, w) :: gs, h => by
      simp only [Json.beqF, Bool.and_eq_true, beq_iff_eq] at h
      refine congrArg₂ List.cons ?_ (Json.eqF_of_beqF h.2)
      exact congrArg₂ Prod.mk h.1.1 (Json.eq_of_beq h.1.2)

end

mutual

theorem Json.beq_refl : ∀ (a : Json), Json.beq a a = true
  | .null => rfl
  | .bool b => by simp [Json.beq]
  | .num n => by simp [Json.beq]
  | .str s => by simp [Json.beq]
  | .arr xs => Json.beqL_refl xs
  | .obj fs => Json.beqF_refl fs

theorem Json.beqL_refl : ∀ (xs : List Json), Json.beqL xs xs = true
  | [] => rfl
  | x :: xs => by
      simp only [Json.beqL, Bool.and_eq_true]
      exact ⟨Json.beq_refl x, Json.beqL_refl xs⟩

theorem Json.beqF_refl : ∀ (fs : List (String × Json)), Json.beqF fs fs = true
  | [] => rfl
  | (k, v) :: fs => by
      simp only [Json.beqF, Bool.and_eq_true, beq_self_eq_true]
      exact ⟨⟨trivial, Json.beq_refl v⟩, Json.beqF_refl fs⟩

end

instance : DecidableEq Json := fun a b =>
  if h : Json.beq a b = true then isTrue (Json.eq_of_beq h)
  else isFalse (fun he => h (he ▸ Json.beq_refl a))

/-- First binding of a key in a JSON object's field list. -/
def Json.lookup : List (String × Json) → String → Option Json
  | [], _ => none
  | (k, v) :: fs, key => if k = key then some v else Json.lookup fs key

/-- Python truthiness of a JSON value (`bool(x)`). -/
def Json.truthy : Json → Bool
  | .null => false
  | .bool b => b
  | .num n => n != 0
  | .str s => !s.isEmpty
  | .arr xs => !xs.isEmpty
  | .obj fs => !fs.isEmpty

/-- Whether the value is a Python `dict` (`isinstance(x, dict)`). -/
def Json.isObj : Json → Bool
  | .obj _ => true
  | _ => false

/-- Whether the value is a Python `list` (`isinstance(x, list)`). -/
def Json.isList : Json → Bool
  | .arr _ => true
  | _ => false

/-- Whether the value may serve as a `dict` key (Python hashability). -/
def Json.hashable : Json → Bool
  | .arr _ => false
  | .obj _ => false
  | _ => true

/-- Result of running an embedded Python computation that builds a value of
type `α`: either a normal return, or an uncaught exception together with the
state accumulated up to the raise point. -/
inductive PyResult (α : Type) where
  | ok (a : α)
  | exn (st : α) (msg : String)
deriving DecidableEq

/-- A Python `dict` with arbitrary (hashable) keys, in insertion order. -/
abbrev ParamMap : Type := List (Json × Json)

/-- `d[k] = v` on an insertion-ordered dict: an existing key keeps its
position and gets the new value, a new key is appended. -/
def dictSet (m : ParamMap) (k v : Json) : ParamMap :=
  if m.any (fun p => p.1 == k) then
    m.map (fun p => if p.1 == k then (k, v) else p)
  else
    m ++ [(k, v)]

/-- `d.get(k)` support: first (unique) binding of `k`. -/
def dictGet (m : ParamMap) (k : Json) : Option Json :=
  (m.find? (fun p => p.1 == k)).map (fun p => p.2)

/-- Convenience: `d.get('name')` with a string key, `None` when absent. -/
def pget (m : ParamMap) (k : String) : Json :=
  (dictGet m (.str k)).getD .null

/-- Keys of a dict, in insertion order. -/
def dictKeys (m : ParamMap) : List Json := m.map (fun p => p.1)

/-- `k in d` for a string key. -/
def dictHas (m : ParamMap) (k : String) : Bool :=
  m.any (fun p => p.1 == Json.str k)

/-! ### Python string primitives -/

/-- Does `needle` occur as a contiguous sublist of `hay`?  (Helper for the
Python substring test `needle in hay`.) -/
def subList (needle : List Char) : List Char → Bool
  | [] => needle.isEmpty
  | c :: t => needle.isPrefixOf (c :: t) || subList needle t

/-- Python's substring test `needle in hay`. -/
def strContains (hay needle : String) : Bool :=
  subList needle.data hay.data

theorem isPrefixOf_append (n b : List Char) : n.isPrefixOf (n ++ b) = true := by
  induction n with
  | nil => simp [List.isPrefixOf]
  | cons c t ih => simp [List.isPrefixOf, ih]

theorem subList_append_mid (a n b : List Char) :
    subList n (a ++ n ++ b) = true := by
  induction a with
  | nil =>
      cases h : n ++ b with
      | nil =>
          rcases List.append_eq_nil.mp h with ⟨h1, h2⟩
          simp [subList, h1, h2, List.isEmpty]
      | cons c t =>
          simp only [List.nil_append, List.append_assoc, h, subList,
            Bool.or_eq_true]
          exact Or.inl (h ▸ isPrefixOf_append n b)
  | cons c t ih =>
      simp only [List.cons_append, subList, Bool.or_eq_true]
      exact Or.inr (by simpa using ih)

theorem strContains_append_mid (a mid b : String) :
    strContains (a ++ mid ++ b) mid = true := by
  unfold strContains
  rw [String.data_append, String.data_append]
  exact subList_append_mid a.data mid.data b.data

/-- Python `repr` of a list of strings, e.g. `['a', 'b']` — the layout used
by f-string interpolation of `missing_params`. -/
def quoteJoin : List String → String
  | [] => ""
  | [s] => "'" ++ s ++ "'"
  | s :: rest => "'" ++ s ++ "', " ++ quoteJoin rest

def pyStrList (xs : List String) : String := "[" ++ quoteJoin xs ++ "]"

/-- Python `sep.join(xs)`. -/
def strJoin (sep : String) : List String → String
  | [] => ""
  | [x] => x
  | x :: rest => x ++ sep ++ strJoin sep rest

theorem quoteJoin_mem_split {p : String} :
    ∀ {xs : List String}, p ∈ xs → ∃ a b, quoteJoin xs = a ++ p ++ b
  | [], h => absurd h (List.not_mem_nil p)
  | [s], h => by
      rcases List.mem_singleton.mp h with rfl
      exact ⟨"'", "'", by simp [quoteJoin, String.append_assoc]⟩
  | s :: t :: rest, h => by
      rcases List.mem_cons.mp h with rfl | h2
      · exact ⟨"'", "', " ++ quoteJoin (t :: rest), by
          simp [quoteJoin, String.append_assoc]⟩
      · obtain ⟨a, b, hab⟩ := quoteJoin_mem_split h2
        exact ⟨"'" ++ s ++ "', " ++ a, b, by
          simp [quoteJoin, hab, String.append_assoc]⟩

theorem pyStrList_contains {p : String} {xs : List String} (h : p ∈ xs) :
    strContains (pyStrList xs) p = true := by
  obtain ⟨a, b, hab⟩ := quoteJoin_mem_split h
  unfold pyStrList
  rw [hab]
  have : "[" ++ (a ++ p ++ b) ++ "]" = ("[" ++ a) ++ p ++ (b ++ "]") := by
    simp [String.append_assoc]
  rw [this]
  exact strContains_append_mid _ _ _

mutual

/-- Python `repr` of a JSON-like value (single-quoted strings); used by
f-string interpolation of dict/list values into log and error messages. -/
def pyRepr : Json → String
  | .null => "None"
  | .bool true => "True"
  | .bool false => "False"
  | .num n => toString n
  | .str s => "'" ++ s ++ "'"
  | .arr xs => "[" ++ pyReprL xs ++ "]"
  | .obj fs => "\x7b" ++ pyReprF fs ++ "\x7d"

def pyReprL : List Json → String
  | [] => ""
  | [x] => pyRepr x
  | x :: xs => pyRepr x ++ ", " ++ pyReprL xs

def pyReprF : List (String × Json) → String
  | [] => ""
  | [(k, v)] => "'" ++ k ++ "': " ++ pyRepr v
  | (k, v) :: fs => "'" ++ k ++ "': " ++ pyRepr v ++ ", " ++ pyReprF fs

end

/-- Python `str` of a JSON-like value (as interpolated by an f-string). -/
def pyStr : Json → String
  | .str s => s
  | v => pyRepr v

/-- Python `str.lower()` (ASCII suffices for the classifier uses here). -/
def strToLower (s : String) : String := String.mk (s.data.map Char.toLower)

/-- Python `str.startswith`. -/
def strStartsWith (s pat : String) : Bool := pat.data.isPrefixOf s.data

/-- Python `s[n:]` (character offset). -/
def strDrop (s : String) (n : Nat) : String := String.mk (s.data.drop n)

/-- Left-to-right non-overlapping replacement of a nonempty pattern
(semantics of Python `str.replace` for nonempty patterns).  The fuel
argument only bounds recursion depth; the consumed suffix always shrinks,
so fuel equal to the input length never runs out. -/
def replaceListAux (pat rep : List Char) : Nat → List Char → List Char
  | 0, s => s
  | _ + 1, [] => []
  | fuel + 1, c :: rest =>
      if pat.isPrefixOf (c :: rest) ∧ pat ≠ [] then
        rep ++ replaceListAux pat rep fuel (rest.drop (pat.length - 1))
      else c :: replaceListAux pat rep fuel rest

/-- Python `s.replace(pat, rep)` for nonempty `pat`. -/
def strReplace (s pat rep : String) : String :=
  String.mk (replaceListAux pat.data rep.data s.data.length s.data)

/-- Split on a nonempty separator, keeping empty fields
(semantics of Python `str.split(sep)`); fuel as in `replaceListAux`. -/
def splitCharsAux (sep : List Char) : Nat → List Char → List (List Char)
  | 0, s => [s]
  | _ + 1, [] => [[]]
  | fuel + 1, c :: rest =>
      if sep.isPrefixOf (c :: rest) ∧ sep ≠ [] then
        [] :: splitCharsAux sep fuel (rest.drop (sep.length - 1))
      else
        match splitCharsAux sep fuel rest with
        | [] => [[c]]
        | t :: ts => (c :: t) :: ts

/-- Python `s.split(sep)` for nonempty `sep`. -/
def strSplitOn (s sep : String) : List String :=
  (splitCharsAux sep.data s.data.length s.data).map String.mk

/-- Minimal JSON string escaping (backslash and double quote; the strings
serialized by this code contain no control characters). -/
def escapeChars : List Char → List Char
  | [] => []
  | c :: rest =>
      if c = '\\' then '\\' :: '\\' :: escapeChars rest
      else if c = '"' then '\\' :: '"' :: escapeChars rest
      else c :: escapeChars rest

def escapeJson (s : String) : String := String.mk (escapeChars s.data)

mutual

/-- Python `json.dumps` with its default separators. -/
def jsonDumps : Json → String
  | .null => "null"
  | .bool true => "true"
  | .bool false => "false"
  | .num n => toString n
  | .str s => "\"" ++ escapeJson s ++ "\""
  | .arr xs => "[" ++ jsonDumpsL xs ++ "]"
  | .obj fs => "\x7b" ++ jsonDumpsF fs ++ "\x7d"

def jsonDumpsL : List Json → String
  | [] => ""
  | [x] => jsonDumps x
  | x :: xs => jsonDumps x ++ ", " ++ jsonDumpsL xs

def jsonDumpsF : List (String × Json) → String
  | [] => ""
  | [(k, v)] => "\"" ++ escapeJson k ++ "\": " ++ jsonDumps v
  | (k, v) :: fs => "\"" ++ escapeJson k ++ "\": " ++ jsonDumps v ++ ", " ++ jsonDumpsF fs

end

/-! ### Raising-computation combinators and raising Python primitives -/

/-- Sequence two raising steps that thread the parameter dict. -/
def pyBind (r : PyResult α) (f : α → PyResult α) : PyResult α :=
  match r with
  | .ok a => f a
  | .exn st m => .exn st m

/-- Python `try: body except Exception: handler` where the handler receives
the state at the raise point. -/
def pyTry (r : PyResult α) (handler : α → String → PyResult α) : PyResult α :=
  match r with
  | .ok a => .ok a
  | .exn st msg => handler st msg

/-- Python `k in x` for a string `k`: key test on dicts, membership on
lists, substring on strings; `TypeError` on non-iterables. -/
def pyIn (k : String) : Json → Except String Bool
  | .obj fs => .ok (fs.any (fun p => p.1 == k))
  | .arr xs => .ok (xs.contains (.str k))
  | .str s => .ok (strContains s k)
  | _ => .error "TypeError: argument of type is not iterable"

/-- Python `x[k]` for a string `k`. -/
def pySub (x : Json) (k : String) : Except String Json :=
  match x with
  | .obj fs =>
      match Json.lookup fs k with
      | some v => .ok v
      | none => .error "KeyError"
  | .str _ => .error "TypeError: string indices must be integers"
  | .arr _ => .error "TypeError: list indices must be integers"
  | _ => .error "TypeError: object is not subscriptable"

/-- Python iteration `for x in v`: lists yield elements, dicts yield their
keys, strings yield one-character strings; `TypeError` otherwise. -/
def iterOf : Json → Except String (List Json)
  | .arr xs => .ok xs
  | .obj fs => .ok (fs.map (fun p => Json.str p.1))
  | .str s => .ok (s.data.map (fun c => Json.str (String.singleton c)))
  | _ => .error "TypeError: object is not iterable"

/-- Python `params.update(x)`: dicts overwrite-merge; lists of pairs and
two-character strings are accepted elementwise; otherwise raises. -/
def dictUpdate (m : ParamMap) : Json → PyResult ParamMap
  | .obj fs => .ok (fs.foldl (fun acc p => dictSet acc (.str p.1) p.2) m)
  | .arr xs =>
      xs.foldl
        (fun acc x =>
          pyBind acc (fun mm =>
            match x with
            | .arr [a, b] =>
                if a.hashable then .ok (dictSet mm a b)
                else .exn mm "TypeError: unhashable type"
            | .str s =>
                match s.data with
                | [c1, c2] =>
                    .ok (dictSet mm (.str (String.singleton c1)) (.str (String.singleton c2)))
                | _ => .exn mm "ValueError: dictionary update sequence element has bad length"
            | _ => .exn mm "TypeError: cannot convert dictionary update sequence element"))
        (.ok m)
  | .str s => if s.data.isEmpty then .ok m else .exn m "ValueError: dictionary update sequence element has length 1"
  | _ => .exn m "TypeError: object is not iterable"

/-! ### Parameter extractor, `lambda_function.py` variant

`mlops-agent.py` lines 96-147 are textually identical to
`lambda_function.py` lines 155-204, so one embedding (`LF`) covers both.
-/

/-- The loop body of METHOD 1 (`params[param['name']] = param['value']` for
dict elements carrying both fields; an unhashable name value raises). -/
def arrayPropStep (acc : PyResult ParamMap) (p : Json) : PyResult ParamMap :=
  pyBind acc (fun m =>
    match p with
    | .obj pfs =>
        match Json.lookup pfs "name", Json.lookup pfs "value" with
        | some n, some v =>
            if n.hashable then .ok (dictSet m n v)
            else .exn m "TypeError: unhashable type"
        | _, _ => .ok m
    | _ => .ok m)

/-- METHOD 1 of both extractor variants (`lambda_function.py` 163-171,
`mlops-project.py` 152-158): scan the `parameters` array; elements that are
dicts carrying both `name` and `value` are written into the dict, later
occurrences overwriting earlier ones. -/
def paramsArrayStep (fs : List (String × Json)) (params : ParamMap) : PyResult ParamMap :=
  match Json.lookup fs "parameters" with
  | some (.arr xs) => xs.foldl arrayPropStep (.ok params)
  | _ => .ok params

namespace LF

/-- The loop body of METHOD 2: add a dict element carrying `name` and
`value` only when the name is not already bound (array-form wins). -/
def bodyPropStep (acc : PyResult ParamMap) (p : Json) : PyResult ParamMap :=
  pyBind acc (fun m =>
    match p with
    | .obj pfs =>
        match Json.lookup pfs "name", Json.lookup pfs "value" with
        | some n, some v =>
            if n.hashable then
              if m.any (fun q => q.1 == n) then .ok m
              else .ok (dictSet m n v)
            else .exn m "TypeError: unhashable type"
        | _, _ => .ok m
    | _ => .ok m)

/-- METHOD 2 (`lambda_function.py` 173-192): descend
`requestBody.content["application/json"].properties` via `.get` with dict
defaults; each properties element that is a dict with `name` and `value`
and whose name is not already bound is added (array-form wins). -/
def requestBodyStep (fs : List (String × Json)) (params : ParamMap) : PyResult ParamMap :=
  let rb := (Json.lookup fs "requestBody").getD .null
  if rb.truthy then
    match rb with
    | .obj rfs =>
        let content := (Json.lookup rfs "content").getD (.obj [])
        match content with
        | .obj cfs =>
            let aj := (Json.lookup cfs "application/json").getD (.obj [])
            match aj with
            | .obj afs =>
                let props := (Json.lookup afs "properties").getD (.arr [])
                match iterOf props with
                | .error msg => .exn params msg
                | .ok items => items.foldl bodyPropStep (.ok params)
            | _ => .exn params "AttributeError: object has no attribute get"
        | _ => .exn params "AttributeError: object has no attribute get"
    | _ => .exn params "AttributeError: object has no attribute get"
  else .ok params

/-- METHOD 3 (`lambda_function.py` 194-197): overwrite-merge of
`queryStringParameters` when present and truthy. -/
def queryStringStep (fs : List (String × Json)) (params : ParamMap) : PyResult ParamMap :=
  if fs.any (fun p => p.1 == "queryStringParameters") then
    let qsp := (Json.lookup fs "queryStringParameters").getD .null
    if qsp.truthy then dictUpdate params qsp else .ok params
  else .ok params

/-- The `try:` block of `extract_parameters_from_request_body`
(`lambda_function.py` 159-199).  A non-dict event raises at
`list(event.keys())`. -/
def extractBody (e : Json) : PyResult ParamMap :=
  match e with
  | .obj fs =>
      pyBind (paramsArrayStep fs [])
        (fun m1 => pyBind (requestBodyStep fs m1) (fun m2 => queryStringStep fs m2))
  | _ => .exn [] "AttributeError: object has no attribute keys"

/-- `extract_parameters_from_request_body` (`lambda_function.py` 155-204):
the try body with the catch-all handler that logs and falls through to
`return params`. -/
def extract_parameters_from_request_body (e : Json) : PyResult ParamMap :=
  pyTry (extractBody e) (fun st _ => .ok st)

end LF

namespace MP

/-- The `requestBody` block of `mlops-project.py`'s extractor (lines
161-183): `in`/`[...]` subscripting without `.get` defaults, and
`properties.items()` which requires `properties` to be a dict. -/
def requestBodyStep (fs : List (String × Json)) (params : ParamMap) : PyResult ParamMap :=
  if fs.any (fun p => p.1 == "requestBody") then
    let rb := (Json.lookup fs "requestBody").getD .null
    if rb.isObj then
      match rb with
      | .obj rfs =>
          if rfs.any (fun p => p.1 == "content") then
            let content := (Json.lookup rfs "content").getD .null
            match pyIn "application/json" content with
            | .error msg => .exn params msg
            | .ok false => .ok params
            | .ok true =>
                match pySub content "application/json" with
                | .error msg => .exn params msg
                | .ok jsonContent =>
                    match pyIn "properties" jsonContent with
                    | .error msg => .exn params msg
                    | .ok false => .ok params
                    | .ok true =>
                        match pySub jsonContent "properties" with
                        | .error msg => .exn params msg
                        | .ok props =>
                            match props with
                            | .obj pfs =>
                                .ok (pfs.foldl
                                  (fun m kv =>
                                    match kv.2 with
                                    | .obj vfs =>
                                        if vfs.any (fun p => p.1 == "value") then
                                          dictSet m (.str kv.1)
                                            ((Json.lookup vfs "value").getD .null)
                                        else m
                                    | _ => m)
                                  params)
                            | _ => .exn params "AttributeError: object has no attribute items"
          else
            -- direct properties in requestBody: unconditional assignment,
            -- overwriting values the parameters array already set
            .ok (rfs.foldl
              (fun m kv =>
                match kv.2 with
                | .obj vfs =>
                    if vfs.any (fun p => p.1 == "value") then
                      dictSet m (.str kv.1) ((Json.lookup vfs "value").getD .null)
                    else dictSet m (.str kv.1) kv.2
                | _ => dictSet m (.str kv.1) kv.2)
              params)
      | _ => .ok params
    else .ok params
  else .ok params

/-- `extract_parameters_from_request_body` (`mlops-project.py` 143-188):
no `try/except` — any exception raised inside propagates to the caller.  A
non-dict event raises at `list(event.keys())` (line 148). -/
def extract_parameters_from_request_body (e : Json) : PyResult ParamMap :=
  match e with
  | .obj fs =>
      pyBind (paramsArrayStep fs []) (fun m1 => requestBodyStep fs m1)
  | _ => .exn [] "AttributeError: object has no attribute keys"

end MP

/-! ### `create_mlops_project` (`lambda_function.py` 522-765)

External AWS calls are abstracted as a world oracle; the second component
of the result is the trace of external calls issued, in order.
`find_mlops_service_catalog_product` catches all its own exceptions and
returns a pair of optional identifiers, so it is modelled as an oracle
value; `mlops-agent.py` 428-669 is the same function up to response-body
text and is covered by the same poll-loop embedding.
-/

namespace LF

/-- One external AWS API call issued by `create_mlops_project`. -/
inductive Call where
  | findProduct
  | createProject
  | describeProject (k : Nat)
deriving DecidableEq

/-- Oracle for the external calls of `create_mlops_project`:
`find_product` is the returned pair of `find_mlops_service_catalog_product`,
`create_project` yields `(ProjectArn, ProjectId)` or the exception text,
`describe_project k` is the outcome of the `k`-th `describe_project` call,
and `now` is `int(time.time())`. -/
structure ProjectWorld where
  find_product : Option String × Option String
  create_project : Except String (String × String)
  describe_project : Nat → Except String String
  now : Int

/-- Python truthiness of an optional string (`None` and `''` are falsy). -/
def optTruthy : Option String → Bool
  | none => false
  | some s => !s.isEmpty

/-- The five required parameters, in the order the source checks them. -/
def requiredParams : List String :=
  ["project_name", "github_repo_build", "github_repo_deploy", "connection_arn",
   "github_username"]

/-- The aggregated `missing_params` list (lines 533-538). -/
def missingOf (params : ParamMap) : List String :=
  requiredParams.filter (fun p => !(pget params p).truthy)

/-- Exit of the status-polling `while` loop (lines 643-675).  `next` is the
index of the next unissued `describe_project` call; on a `brk` exit the
loop observed `CreateCompleted` at index `next - 1`. -/
inductive PollExit where
  | brk (next : Nat)
  | failed (next : Nat)
  | timeout (next : Nat)
deriving DecidableEq

/-- The polling loop body: each iteration issues one `describe_project`;
an exception from the status check is transient (sleep and continue,
consuming one interval), `CreateCompleted` breaks, `CreateFailed` returns
the failure response, anything else sleeps and continues.  `fuel` is the
number of remaining 10-second intervals before `elapsed` reaches the
600-second maximum (initially 60). -/
def pollAux (d : Nat → Except String String) : Nat → Nat → PollExit
  | k, 0 => .timeout k
  | k, fuel + 1 =>
    match d k with
    | .error _ => pollAux d (k + 1) fuel
    | .ok s =>
        if s = "CreateCompleted" then .brk (k + 1)
        else if s = "CreateFailed" then .failed (k + 1)
        else pollAux d (k + 1) fuel

/-- The trace of the first `n` in-loop `describe_project` calls. -/
def describeTrace (n : Nat) : List Call := (List.range n).map Call.describeProject

/-- `create_mlops_project` (`lambda_function.py` 522-765). -/
def create_mlops_project (w : ProjectWorld) (params : ParamMap) : Json × List Call :=
  let pn := pget params "project_name"
  let ghb := pget params "github_repo_build"
  let ghd := pget params "github_repo_deploy"
  let ca := pget params "connection_arn"
  let ghu := pget params "github_username"
  if !(requiredParams.all (fun p => (pget params p).truthy)) then
    let errorMsg := "Missing required parameters: " ++ pyStrList (missingOf params) ++
      ". Available params: " ++ pyRepr (.arr (dictKeys params))
    (.obj [("statusCode", .num 400), ("body", .str errorMsg)], [])
  else
    let pid := w.find_product.1
    let aid := w.find_product.2
    if !(optTruthy pid) || !(optTruthy aid) then
        (.obj [("statusCode", .num 404),
               ("body", .obj [
                 ("error", .str "MLOps Service Catalog product not found"),
                 ("message", .str "Could not locate the MLOps template using dynamic discovery")])],
         [.findProduct])
      else
        let productId := pid.getD ""
        let artifactId := aid.getD ""
        let buildRepo := pyStr ghu ++ "/" ++ pyStr ghb
        let deployRepo := pyStr ghu ++ "/" ++ pyStr ghd
        match w.create_project with
        | .error msg =>
            let resp : Json :=
              if strContains msg "AccessDenied" then
                .obj [("statusCode", .num 403),
                      ("body", .obj [
                        ("error", .str "Access denied creating MLOps project"),
                        ("message", .str "Insufficient permissions for SageMaker project creation")])]
              else if strContains (strToLower msg) "already exists" then
                .obj [("statusCode", .num 409),
                      ("body", .obj [
                        ("error", .str ("Project \"" ++ pyStr pn ++ "\" already exists")),
                        ("message", .str "Choose a different project name"),
                        ("suggestion", .str ("Try: " ++ pyStr pn ++ "-v2 or " ++ pyStr pn ++ "-" ++ toString w.now))])]
              else
                .obj [("statusCode", .num 500),
                      ("body", .str ("Failed to create MLOps project: " ++ msg))]
            (resp, [.findProduct, .createProject])
        | .ok (projectArn, projectId) =>
            let finalize : Nat → Nat → Json × List Call := fun n elapsed =>
              let finalStatus :=
                match w.describe_project n with
                | .ok s => s
                | .error _ => "Unknown"
              let calls := [Call.findProduct, Call.createProject] ++ describeTrace (n + 1)
              if finalStatus ≠ "CreateCompleted" then
                (.obj [("statusCode", .num 202),
                       ("body", .obj [
                         ("message", .str ("MLOps project creation in progress: " ++ pyStr pn)),
                         ("project_name", pn),
                         ("project_id", .str projectId),
                         ("project_arn", .str projectArn),
                         ("status", .str finalStatus),
                         ("warning", .str "Creation did not complete within 600 seconds"),
                         ("next_steps", .arr [
                           .str "Check SageMaker Studio for project status",
                           .str "Project creation may still be in progress",
                           .str "CI/CD pipelines will be created once project completes"])])],
                 calls)
              else
                (.obj [("statusCode", .num 200),
                       ("body", .obj [
                         ("message", .str ("Successfully created MLOps project: " ++ pyStr pn)),
                         ("project_name", pn),
                         ("project_id", .str projectId),
                         ("project_arn", .str projectArn),
                         ("model_package_group_name", .str (pyStr pn ++ "-" ++ projectId)),
                         ("status", .str "CreateCompleted"),
                         ("github_integration", .obj [
                           ("build_repo", .str buildRepo),
                           ("deploy_repo", .str deployRepo),
                           ("connection_arn", ca)]),
                         ("template_info", .obj [
                           ("product_id", .str productId),
                           ("provisioning_artifact_id", .str artifactId)]),
                         ("creation_time", .str (toString elapsed ++ " seconds")),
                         ("next_steps", .arr [
                           .str "MLOps project created successfully",
                           .str "Build pipeline will start automatically",
                           .str "Models will be registered to model package group after training",
                           .str "Use manage-model-approval action to approve models when ready",
                           .str "Check SageMaker Studio for project details",
                           .str ("Build pipeline: https://github.com/" ++ buildRepo),
                           .str ("Deploy pipeline: https://github.com/" ++ deployRepo)])])],
                 calls)
            match pollAux w.describe_project 0 60 with
            | .failed n =>
                (.obj [("statusCode", .num 500),
                       ("body", .obj [
                         ("error", .str "Project creation failed"),
                         ("message", .str "Project creation failed with status: CreateFailed"),
                         ("project_name", pn),
                         ("project_id", .str projectId),
                         ("status", .str "CreateFailed")])],
                 [Call.findProduct, Call.createProject] ++ describeTrace n)
            | .brk n => finalize n (10 * (n - 1))
            | .timeout n => finalize n 600

end LF

/-! ### Action dispatcher (`lambda_function.py` 70-153, `mlops-project.py` 68-141)

The ten per-path handlers each run a sequence of external AWS calls; for the
dispatcher-level claims they are abstracted as an oracle
`rh : String → ParamMap → Except String Json` giving, for the matched path
literal, either the handler's returned dict or the text of the exception it
raised.  The dispatcher-level claims quantify over all handler outcomes
("regardless of which handler ran or whether it raised"), which this
parameter realises.  The CloudWatch log-group tagging prologue (wrapped in
its own `try/except` and performing only logging side effects) is omitted.
-/

/-- Per-path handler behavior: normal dict result or raised exception text. -/
abbrev RouteHandler := String → ParamMap → Except String Json

namespace LF

/-- The dispatch table literals of `lambda_function.py` 106-125, in source
order (`mlops-agent.py` 47-66 lists the same paths). -/
def knownPaths : List String :=
  ["/configure-code-connection", "/create-mlops-project", "/manage-project-lifecycle",
   "/list-mlops-templates", "/build-cicd-pipeline", "/manage-model-approval",
   "/manage-staging-approval", "/create-feature-store-group", "/create-mlflow-server",
   "/create-model-group"]

/-- The catch-all `else` response of lines 127-130. -/
def unknownPathResponse (apiPath : Json) : Json :=
  .obj [("statusCode", .num 400),
        ("body", .str ("Unknown API path: " ++ pyStr apiPath ++ ". Available paths: " ++
          strJoin ", " knownPaths))]

/-- The `try` block of lines 105-136: route on exact `apiPath` match, with
the error boundary that turns any handler exception into the status-500
`Error: {str(e)}` response. -/
def dispatch (rh : RouteHandler) (apiPath : Json) (params : ParamMap) : Json :=
  match knownPaths.find? (fun p => apiPath == Json.str p) with
  | some p =>
      match rh p params with
      | .ok r => r
      | .error msg => .obj [("statusCode", .num 500), ("body", .str ("Error: " ++ msg))]
  | none => unknownPathResponse apiPath

/-- The parameter map a `lambda_function.py` invocation hands its handler
(its extractor never lets an exception escape, see `extract_ok`). -/
def extractMap (e : Json) : ParamMap :=
  match extract_parameters_from_request_body e with
  | .ok m => m
  | .exn m _ => m

/-- The fixed outbound envelope of lines 140-153. -/
def envelope (ag ap hm sc : Json) (body : String) : Json :=
  .obj [("messageVersion", .str "1.0"),
        ("response", .obj [
          ("actionGroup", ag),
          ("apiPath", ap),
          ("httpMethod", hm),
          ("httpStatusCode", sc),
          ("responseBody", .obj [
            ("application/json", .obj [("body", .str body)])])])]

/-- `lambda_handler` (`lambda_function.py` 70-153): echo fields, extract
parameters, dispatch inside the error boundary, and wrap the response in
the fixed envelope.  A non-dict event raises at `event.get` (line 93,
outside any `try`); a handler returning a non-dict raises at
`response.get('statusCode', 200)` (line 146, also outside the `try`). -/
def lambda_handler (rh : RouteHandler) (e : Json) : PyResult Json :=
  match e with
  | .obj fs =>
      let ag := (Json.lookup fs "actionGroup").getD (.str "")
      let ap := (Json.lookup fs "apiPath").getD (.str "")
      let hm := (Json.lookup fs "httpMethod").getD (.str "")
      let params := extractMap e
      let response := dispatch rh ap params
      match response with
      | .obj rs =>
          .ok (envelope ag ap hm ((Json.lookup rs "statusCode").getD (.num 200))
            (jsonDumps ((Json.lookup rs "body").getD response)))
      | _ => .exn .null "AttributeError: object has no attribute get"
  | _ => .exn .null "AttributeError: object has no attribute get"

end LF

namespace MP

/-- The dispatch table literals of `mlops-project.py` 111-129, in source
order (the first branch accepts two aliases for the connection handler). -/
def knownPaths : List String :=
  ["/create-code-connection", "/configure-code-connection", "/create-mlops-project",
   "/build-cicd-pipeline", "/manage-model-approval", "/manage-staging-approval",
   "/list-mlops-templates", "/create-feature-store-group",
   "/create-mlflow-tracking-server", "/manage-project-lifecycle"]

/-- `lambda_handler` (`mlops-project.py` 68-141).  The extractor is called
at line 99, before the `try` at line 108, so an extractor exception escapes
the handler; every matched branch returns the handler result directly —
no response envelope is ever built in this variant. -/
def lambda_handler (rh : RouteHandler) (e : Json) : PyResult Json :=
  match e with
  | .obj fs =>
      let ap := (Json.lookup fs "apiPath").getD (.str "")
      match extract_parameters_from_request_body e with
      | .exn _ msg => .exn .null msg
      | .ok params =>
          match knownPaths.find? (fun p => ap == Json.str p) with
          | some p =>
              match rh p params with
              | .ok r => .ok r
              | .error msg =>
                  .ok (.obj [("statusCode", .num 500),
                             ("body", .str ("Internal server error: " ++ msg))])
          | none =>
              .ok (.obj [("statusCode", .num 400),
                         ("body", .str ("Unknown API path: " ++ pyStr ap))])
  | _ => .exn .null "AttributeError: object has no attribute get"

end MP

/-! ### `manage_project_lifecycle` (`lambda_function.py` 1552-1608) -/

namespace LF

/-- The fields of a successful `describe_project` response that the
`describe` branch reads (`CreationTime.isoformat()` is supplied by the
oracle as the ISO string); the `error` case is any exception raised while
describing, including `KeyError` on a missing response field. -/
structure DescribeResponse where
  projectName : Json
  projectId : Json
  projectArn : Json
  projectStatus : Json
  creationTimeIso : String
  createdBy : Json

/-- Oracle for `manage_project_lifecycle`'s single possible external call. -/
structure LifecycleWorld where
  describe_project : Except String DescribeResponse

/-- External calls `manage_project_lifecycle` may issue. -/
inductive LifecycleCall where
  | describeProject
deriving DecidableEq

/-- `manage_project_lifecycle` (`lambda_function.py` 1552-1608): missing
required parameters are aggregated into a 400; `describe` issues one
external describe call; `delete` returns the fixed 403 refusal without any
external call; anything else is an unsupported-action 400. -/
def manage_project_lifecycle (w : LifecycleWorld) (params : ParamMap) :
    Json × List LifecycleCall :=
  let pn := pget params "project_name"
  let action := pget params "action"
  if !(pn.truthy && action.truthy) then
    let missing := (if !pn.truthy then ["project_name"] else []) ++
      (if !action.truthy then ["action"] else [])
    let errorMsg := "Missing required parameters: " ++ pyStrList missing ++
      ". Available params: " ++ pyRepr (.arr (dictKeys params))
    (.obj [("statusCode", .num 400), ("body", .str errorMsg)], [])
  else if action == Json.str "describe" then
    match w.describe_project with
    | .ok r =>
        (.obj [("statusCode", .num 200),
               ("body", .obj [
                 ("project_name", r.projectName),
                 ("project_id", r.projectId),
                 ("project_arn", r.projectArn),
                 ("project_status", r.projectStatus),
                 ("creation_time", .str r.creationTimeIso),
                 ("created_by", r.createdBy)])],
         [.describeProject])
    | .error msg =>
        (.obj [("statusCode", .num 500),
               ("body", .str ("Failed to manage project lifecycle: " ++ msg))],
         [.describeProject])
  else if action == Json.str "delete" then
    (.obj [("statusCode", .num 403),
           ("body", .obj [
             ("error", .str "Project deletion is disabled"),
             ("message", .str ("Deletion of project \"" ++ pyStr pn ++
               "\" is not allowed for security reasons")),
             ("project_name", pn),
             ("suggestion", .str "Use AWS Console to manually delete projects if needed")])],
     [])
  else
    (.obj [("statusCode", .num 400),
           ("body", .str ("Unsupported action: " ++ pyStr action ++
             ". Supported actions: describe, delete"))],
     [])

end LF

/-! ### Storage-bucket provisioners

`ensure_s3_bucket_exists` (`lambda_function.py` 284-445; `mlops-agent.py`
149-312 is the same function) and `validate_and_setup_s3_bucket`
(`mlops-project.py` 589-691).  S3/STS calls are world-oracle values; the
region-dependent `CreateBucketConfiguration` shape difference does not
change the modelled outcome, so creation is a single oracle value.
-/

/-- A raised `botocore` exception: the parsed `response['Error']['Code']`
(`none` when the exception carries no response attribute) and `str(e)`. -/
structure PyExn where
  code : Option String
  msg : String
deriving DecidableEq

namespace LF

/-- World oracle for `ensure_s3_bucket_exists`: probe, create, STS account
lookup, `int(time.time())`, folder-marker put, write-test put and delete. -/
structure S3World where
  head_bucket : Except PyExn Unit
  create_bucket : Except PyExn Unit
  account_id : Except PyExn String
  now : Nat
  put_folder : Except PyExn Unit
  put_test : Except PyExn Unit
  delete_test : Except PyExn Unit

/-- The four suggested alternative bucket names built in both the
`BucketAlreadyExists` branch (lines 349-354) and the forbidden branch
(lines 376-381). -/
def suggested_names (bucketName acct : String) (ts : Nat) : List String :=
  [bucketName ++ "-" ++ acct,
   bucketName ++ "-" ++ toString ts,
   "mlops-" ++ acct ++ "-" ++ toString ts,
   "sagemaker-mlflow-" ++ acct]

/-- The shared tail of `ensure_s3_bucket_exists` (lines 397-441): optional
folder-marker put (failure tolerated), then the write-then-delete test,
then the ready result. -/
def bucketSetupTail (w : S3World) (bucketName : String) (created : Bool) :
    Bool × String × Json :=
  match w.put_test with
  | .error we => (false, "S3 write access failed: " ++ we.msg, .str bucketName)
  | .ok _ =>
      match w.delete_test with
      | .error we => (false, "S3 write access failed: " ++ we.msg, .str bucketName)
      | .ok _ =>
          (true,
           "S3 bucket ready (" ++ (if created then "created" else "existing") ++
             "): s3://" ++ bucketName,
           .str bucketName)

/-- `ensure_s3_bucket_exists` (`lambda_function.py` 284-445). -/
def ensure_s3_bucket_exists (w : S3World) (artifact_store_uri : String) :
    Bool × String × Json :=
  let s3Path := strReplace artifact_store_uri "s3://" ""
  let bucketName := (strSplitOn s3Path "/").headD ""
  if bucketName.isEmpty then
    (false, "Invalid S3 URI - no bucket name found", .null)
  else
    match w.head_bucket with
    | .ok _ => bucketSetupTail w bucketName false
    | .error he =>
        if he.code == some "404" || strContains he.msg "Not Found" then
          match w.create_bucket with
          | .ok _ => bucketSetupTail w bucketName true
          | .error ce =>
              if strContains ce.msg "BucketAlreadyExists" ||
                  strContains (strToLower ce.msg) "already exists" then
                match w.account_id with
                | .ok acct =>
                    (false, "Bucket name conflict: " ++ ce.msg,
                     .obj [("original_bucket", .str bucketName),
                           ("error", .str ce.msg),
                           ("suggested_names",
                            .arr ((suggested_names bucketName acct w.now).map Json.str)),
                           ("account_id", .str acct)])
                | .error _ => (false, "Bucket creation failed: " ++ ce.msg, .null)
              else (false, "Bucket creation failed: " ++ ce.msg, .null)
        else if he.code == some "403" || strContains he.msg "Forbidden" then
          match w.account_id with
          | .ok acct =>
              (false,
               "Bucket name conflict: " ++ bucketName ++ " is owned by another AWS account",
               .obj [("conflict_type", .str "name_taken"),
                     ("original_bucket", .str bucketName),
                     ("suggested_names",
                      .arr ((suggested_names bucketName acct w.now).map Json.str)),
                     ("account_id", .str acct)])
          | .error _ => (false, "Bucket access forbidden: " ++ he.msg, .null)
        else (false, "Bucket access error: " ++ he.msg, .null)

end LF

namespace MP

/-- Outcome of `head_bucket` in `mlops-project.py`, which distinguishes
the `NoSuchBucket` exception class from all other exceptions. -/
inductive HeadOutcome where
  | ok
  | noSuchBucket
  | err (e : PyExn)
deriving DecidableEq

/-- World oracle for `validate_and_setup_s3_bucket`. -/
structure S3World where
  head_bucket : HeadOutcome
  create_bucket : Except PyExn Unit
  put_tagging : Except PyExn Unit
  account_id : Except PyExn String
  now : Nat

/-- The three suggested alternative bucket names built in both the
already-exists branch (lines 654-658) and the forbidden branch (lines
676-680). -/
def suggested_names (bucketName acct : String) (ts : Nat) : List String :=
  [bucketName ++ "-" ++ acct,
   bucketName ++ "-" ++ toString ts,
   bucketName ++ "-" ++ acct ++ "-" ++ toString ts]

/-- The `except Exception as create_error` classifier (lines 644-665),
shared by failures of `create_bucket` and of `put_bucket_tagging`, which
the same `try` wraps. -/
def createErrorResponse (w : S3World) (bucketName : String) (e : PyExn) :
    Bool × String × Option String :=
  if strContains e.msg "BucketAlreadyExists" ||
      strContains (strToLower e.msg) "already exists" then
    match w.account_id with
    | .ok acct =>
        (false,
         "Bucket name '" ++ bucketName ++ "' already exists globally. " ++
           "Try one of these alternatives: " ++
           strJoin ", " (suggested_names bucketName acct w.now),
         none)
    | .error _ =>
        (false,
         "Bucket name '" ++ bucketName ++
           "' already exists globally. Please choose a different name.",
         none)
  else (false, "Failed to create bucket: " ++ e.msg, none)

/-- `validate_and_setup_s3_bucket` (`mlops-project.py` 589-691). -/
def validate_and_setup_s3_bucket (w : S3World) (s3_uri : String) :
    Bool × String × Option String :=
  if !(strStartsWith s3_uri "s3://") then
    (false, "Invalid S3 URI format - must start with s3://", none)
  else
    let bucketName := (strSplitOn (strDrop s3_uri 5) "/").headD ""
    if bucketName.isEmpty then
      (false, "Invalid S3 URI - no bucket name found", none)
    else
      match w.head_bucket with
      | .ok => (true, "Using existing S3 bucket: " ++ bucketName, some bucketName)
      | .noSuchBucket =>
          match w.create_bucket with
          | .error ce => createErrorResponse w bucketName ce
          | .ok _ =>
              match w.put_tagging with
              | .error te => createErrorResponse w bucketName te
              | .ok _ =>
                  (true, "Successfully created S3 bucket: " ++ bucketName,
                   some bucketName)
      | .err he =>
          if strContains he.msg "Forbidden" || strContains he.msg "403" then
            match w.account_id with
            | .ok acct =>
                (false,
                 "Bucket '" ++ bucketName ++ "' is owned by another account. " ++
                   "Try one of these alternatives: " ++
                   strJoin ", " (suggested_names bucketName acct w.now),
                 none)
            | .error _ =>
                (false,
                 "Bucket '" ++ bucketName ++
                   "' is owned by another account. Please choose a different name.",
                 none)
          else (false, "Error accessing bucket: " ++ he.msg, none)

end MP

/-! ### `parse_feature_descriptions` (`lambda_function.py` 1319-1404)

The function lowercases the input and runs fixed regular expressions over
it; the embedding abstracts each regex outcome as an input — `idMatch` and
`etMatch` are the optional first capture groups of the identifier and
event-time searches, and `matches1`/`matches2` are the capture-group pairs
of the two `feature_patterns` finditer passes.  The claim's invariant is
proved for every combination of regex outcomes, hence for every input
string.  Everything after the regex calls is translated directly;
`feature_names_seen` is the set of names already in `feature_definitions`,
so the dedup check tests membership in the accumulated list. -/

namespace LF

/-- One SageMaker feature definition. -/
structure FeatureDef where
  FeatureName : String
  FeatureType : String
deriving DecidableEq

/-- The inner `add_feature` helper (lines 1362-1368): append unless the
name was already added. -/
def add_feature (st : List FeatureDef) (n t : String) : List FeatureDef :=
  if st.any (fun f => f.FeatureName == n) then st else st ++ [⟨n, t⟩]

/-- `type_mappings.get(feature_type, 'String')` (lines 1375-1378). -/
def type_mappings (t : String) : String :=
  if t = "string" then "String"
  else if t = "integer" then "Integral"
  else if t = "number" then "Fractional"
  else if t = "float" then "Fractional"
  else if t = "binary" then "Fractional"
  else "String"

def time_features : List String :=
  ["begin_session_time_of_day_mean_last_day_1", "end_session_time_of_day_mean_last_day_1"]

def cohort_features : List String :=
  ["cohort_id_2024_09_11", "cohort_id_2024_09_12"]

/-- The body of the feature-pattern match loop (lines 1386-1402) for one
captured `(feature_name, feature_type)` pair. -/
def featureMatchStep (rid et : String) (st : List FeatureDef)
    (m : String × String) : List FeatureDef :=
  let smType := type_mappings m.2
  if strContains m.1 "time_of_day" then
    time_features.foldl (fun s tf => add_feature s tf smType) st
  else if strContains m.1 "cohort_id" then
    cohort_features.foldl (fun s cf => add_feature s cf smType) st
  else if m.1 = rid || m.1 = et then st
  else add_feature st m.1 smType

/-- `parse_feature_descriptions` (lines 1319-1404) over the regex-outcome
oracle: `textTruthy` is the truthiness of `description_text`. -/
def parse_feature_descriptions (textTruthy : Bool) (idMatch etMatch : Option String)
    (matches1 matches2 : List (String × String)) :
    String × String × List FeatureDef :=
  if !textTruthy then
    ("record_id", "event_time",
     [⟨"record_id", "String"⟩, ⟨"event_time", "String"⟩])
  else
    let rid := idMatch.getD "record_id"
    let et := etMatch.getD "event_time"
    let st0 := add_feature (add_feature [] rid "String") et "String"
    let st1 := matches1.foldl (featureMatchStep rid et) st0
    let st2 := matches2.foldl (featureMatchStep rid et) st1
    (rid, et, st2)

end LF

/-! ### Result accessors and fixtures -/

/-- Field access on a JSON object result (`none` on non-objects). -/
def jget (j : Json) (k : String) : Option Json :=
  match j with
  | .obj fs => Json.lookup fs k
  | _ => none

/-- The names column of a feature-definition list. -/
def featureNames (st : List LF.FeatureDef) : List String :=
  st.map (fun f => f.FeatureName)

/-- Concrete forbidden-probe world instantiating the bucket-conflict
provisioner theorem. -/
def stringS3WitnessWorld : MP.S3World :=
  ⟨.err ⟨none, "403 Forbidden"⟩, .ok (), .ok (), .ok "123456789012", 7⟩

/-- A `name`/`value` element of the array-form or body-form sources. -/
def mkNV (p : String × Json) : Json :=
  .obj [("name", .str p.1), ("value", p.2)]

/-- The field list of an event presenting all three parameter shapes
simultaneously: a `parameters` array, nested
`requestBody.content["application/json"].properties`, and
`queryStringParameters`. -/
def mkEventFields (ps bs qs : List (String × Json)) : List (String × Json) :=
  [("parameters", .arr (ps.map mkNV)),
   ("requestBody", .obj [("content", .obj [("application/json",
     .obj [("properties", .arr (bs.map mkNV))])])]),
   ("queryStringParameters", .obj qs)]

/-- An event presenting all three parameter shapes simultaneously. -/
def mkEvent (ps bs qs : List (String × Json)) : Json :=
  .obj (mkEventFields ps bs qs)

/-- Overwrite-merge of an association list into a dict (the effect of the
array-form loop and of `params.update` on the query form). -/
def ovFold (xs : List (String × Json)) (m0 : ParamMap) : ParamMap :=
  xs.foldl (fun m p => dictSet m (.str p.1) p.2) m0

/-- Skip-merge of an association list into a dict (the effect of the
body-form loop, which never overwrites an existing key). -/
def skipFold (xs : List (String × Json)) (m0 : ParamMap) : ParamMap :=
  xs.foldl (fun m p =>
    if m.any (fun q => q.1 == Json.str p.1) then m
    else dictSet m (.str p.1) p.2) m0

/-! ## Supporting lemmas -/

theorem strContains_of_split {s p : String} (h : ∃ a b, s = a ++ p ++ b) :
    strContains s p = true := by
  obtain ⟨a, b, rfl⟩ := h
  exact strContains_append_mid a p b

theorem strJoin_mem_split {p : String} (sep : String) :
    ∀ {xs : List String}, p ∈ xs → ∃ a b, strJoin sep xs = a ++ p ++ b
  | [], h => absurd h (List.not_mem_nil p)
  | [s], h => by
      rcases List.mem_singleton.mp h with rfl
      exact ⟨"", "", by simp [strJoin]⟩
  | s :: t :: rest, h => by
      rcases List.mem_cons.mp h with rfl | h2
      · exact ⟨"", sep ++ strJoin sep (t :: rest), by simp [strJoin, String.append_assoc]⟩
      · obtain ⟨a, b, hab⟩ := strJoin_mem_split sep h2
        exact ⟨s ++ sep ++ a, b, by simp [strJoin, hab, String.append_assoc]⟩

theorem find?_map_set_ne (m : ParamMap) (k v : Json) {k' : Json} (hk : k' ≠ k) :
    (m.map (fun p => if p.1 == k then (k, v) else p)).find? (fun p => p.1 == k') =
      m.find? (fun p => p.1 == k') := by
  induction m with
  | nil => rfl
  | cons a m ih =>
      rw [List.map_cons]
      by_cases ha : a.1 = k
      · have hfa : (if (a.1 == k) = true then (k, v) else a) = (k, v) := by
          simp [ha]
        have h2 : ((k, v).1 == k') = false :=
          beq_eq_false_iff_ne.mpr (fun h => hk h.symm)
        have h3 : (a.1 == k') = false :=
          beq_eq_false_iff_ne.mpr (fun h => hk (ha ▸ h).symm)
        rw [hfa, @List.find?_cons_of_neg _ (fun p => p.1 == k') (k, v) _
            (by simp [h2]),
          @List.find?_cons_of_neg _ (fun p => p.1 == k') a _
            (by simp [h3]), ih]
      · have hfa : (if (a.1 == k) = true then (k, v) else a) = a := by
          simp [ha]
        rw [hfa]
        cases h2 : (a.1 == k') with
        | true =>
            rw [@List.find?_cons_of_pos _ (fun p => p.1 == k') a _ h2,
              @List.find?_cons_of_pos _ (fun p => p.1 == k') a _ h2]
        | false =>
            rw [@List.find?_cons_of_neg _ (fun p => p.1 == k') a _
                (by simp [h2]),
              @List.find?_cons_of_neg _ (fun p => p.1 == k') a _
                (by simp [h2]), ih]

theorem find?_map_set_self (m : ParamMap) (k v : Json)
    (hany : m.any (fun p => p.1 == k) = true) :
    (m.map (fun p => if p.1 == k then (k, v) else p)).find? (fun p => p.1 == k) =
      some (k, v) := by
  induction m with
  | nil => simp at hany
  | cons a m ih =>
      rw [List.map_cons]
      by_cases ha : a.1 = k
      · have hfa : (if (a.1 == k) = true then (k, v) else a) = (k, v) := by
          simp [ha]
        rw [hfa, @List.find?_cons_of_pos _ (fun p => p.1 == k) (k, v) _ (by simp)]
      · have hfa : (if (a.1 == k) = true then (k, v) else a) = a := by
          simp [ha]
        have h1 : (a.1 == k) = false := beq_eq_false_iff_ne.mpr ha
        simp only [List.any_cons, h1, Bool.false_or] at hany
        rw [hfa, @List.find?_cons_of_neg _ (fun p => p.1 == k) a _
            (by simp [h1]),
          ih hany]

theorem find?_eq_none_of_any_false (m : ParamMap) (k : Json)
    (hany : m.any (fun p => p.1 == k) = false) :
    m.find? (fun p => p.1 == k) = none := by
  induction m with
  | nil => rfl
  | cons a m ih =>
      simp only [List.any_cons, Bool.or_eq_false_iff] at hany
      rw [@List.find?_cons_of_neg _ (fun p => p.1 == k) a _
          (by simp [hany.1]),
        ih hany.2]

theorem dictGet_dictSet (m : ParamMap) (k v k' : Json) :
    dictGet (dictSet m k v) k' = if k' = k then some v else dictGet m k' := by
  unfold dictSet dictGet
  by_cases hany : m.any (fun p => p.1 == k) = true
  · rw [if_pos hany]
    by_cases hk : k' = k
    · subst hk
      rw [find?_map_set_self m k' v hany, if_pos rfl]
      rfl
    · rw [find?_map_set_ne m k v hk, if_neg hk]
  · rw [if_neg hany, List.find?_append]
    by_cases hk : k' = k
    · subst hk
      rw [find?_eq_none_of_any_false m k' (by rwa [Bool.not_eq_true] at hany)]
      simp
    · have h1 : ((k, v).1 == k') = false :=
        beq_eq_false_iff_ne.mpr (fun h => hk h.symm)
      cases hfound : m.find? (fun p => p.1 == k') with
      | some p => simp [hfound, hk]
      | none =>
          rw [if_neg hk]
          simp only [Option.none_or]
          rw [@List.find?_cons_of_neg _ (fun p => p.1 == k') (k, v) []
              (by simp [h1])]
          rfl

theorem any_key_eq_isSome (m : ParamMap) (k : Json) :
    m.any (fun p => p.1 == k) = (dictGet m k).isSome := by
  induction m with
  | nil => rfl
  | cons a m ih =>
      cases h : (a.1 == k) with
      | true => simp [dictGet, List.find?, h]
      | false => simpa [dictGet, List.find?, h] using ih

theorem json_lookup_eq_none_of_not_mem {xs : List (String × Json)} {a : String}
    (h : a ∉ xs.map Prod.fst) : Json.lookup xs a = none := by
  induction xs with
  | nil => rfl
  | cons x xs ih =>
      simp only [List.map_cons, List.mem_cons] at h
      push_neg at h
      have hne : ¬(x.1 = a) := fun hh => h.1 hh.symm
      simp only [Json.lookup, if_neg hne, ih h.2]

theorem dictGet_ovFold (k : String) :
    ∀ (xs : List (String × Json)) (m0 : ParamMap),
      (xs.map Prod.fst).Nodup →
      dictGet (ovFold xs m0) (.str k) =
        (match Json.lookup xs k with
         | some v => some v
         | none => dictGet m0 (.str k))
  | [], m0, _ => by simp [ovFold, Json.lookup]
  | (a, v) :: rest, m0, hnd => by
      simp only [List.map_cons, List.nodup_cons] at hnd
      have hstep : ovFold ((a, v) :: rest) m0 = ovFold rest (dictSet m0 (.str a) v) := rfl
      rw [hstep, dictGet_ovFold k rest _ hnd.2]
      by_cases hk : k = a
      · subst hk
        rw [json_lookup_eq_none_of_not_mem hnd.1]
        simp only [Json.lookup, if_pos rfl]
        rw [dictGet_dictSet]
        simp
      · have : Json.str k ≠ Json.str a := by
          intro hc
          cases hc
          exact hk rfl
        have hne2 : ¬(a = k) := fun h => hk h.symm
        simp only [Json.lookup, if_neg hne2]
        cases hl : Json.lookup rest k with
        | some w => simp
        | none => simp [dictGet_dictSet, this]

theorem dictGet_skipFold (k : String) :
    ∀ (xs : List (String × Json)) (m0 : ParamMap),
      dictGet (skipFold xs m0) (.str k) =
        (match dictGet m0 (.str k) with
         | some v => some v
         | none => Json.lookup xs k)
  | [], m0 => by
      cases h : dictGet m0 (.str k) <;> simp [skipFold, Json.lookup, h]
  | (b, v) :: rest, m0 => by
      by_cases hany : m0.any (fun q => q.1 == Json.str b) = true
      · have hstep : skipFold ((b, v) :: rest) m0 = skipFold rest m0 := by
          simp [skipFold, hany]
        rw [hstep, dictGet_skipFold k rest m0]
        by_cases hk : k = b
        · subst hk
          have : (dictGet m0 (.str k)).isSome = true := by
            rw [← any_key_eq_isSome]; exact hany
          cases hg : dictGet m0 (.str k) with
          | some w => simp
          | none => rw [hg] at this; simp at this
        · cases hg : dictGet m0 (.str k) with
          | some w => simp
          | none =>
              have hbk : ¬(b = k) := fun h => hk h.symm
              simp [Json.lookup, hbk]
      · have hstep : skipFold ((b, v) :: rest) m0 =
            skipFold rest (dictSet m0 (.str b) v) := by
          simp only [Bool.not_eq_true] at hany
          simp [skipFold, hany]
        have hg0 : dictGet m0 (.str b) = none := by
          simp only [Bool.not_eq_true] at hany
          rw [any_key_eq_isSome] at hany
          cases hg : dictGet m0 (.str b) with
          | some w => rw [hg] at hany; simp at hany
          | none => rfl
        rw [hstep, dictGet_skipFold k rest _]
        by_cases hk : k = b
        · subst hk
          rw [dictGet_dictSet, if_pos rfl, hg0]
          simp [Json.lookup]
        · have hne : Json.str k ≠ Json.str b := by
            intro hc
            cases hc
            exact hk rfl
          rw [dictGet_dictSet, if_neg hne]
          cases hg : dictGet m0 (.str k) with
          | some w => simp
          | none =>
              have hbk : ¬(b = k) := fun h => hk h.symm
              simp [Json.lookup, hbk]

theorem mem_featureNames_iff_any {st : List LF.FeatureDef} {n : String} :
    st.any (fun f => f.FeatureName == n) = true ↔ n ∈ featureNames st := by
  simp [featureNames, List.any_eq_true, List.mem_map, beq_iff_eq]

theorem featureNames_add_feature_nodup {st : List LF.FeatureDef} (n t : String)
    (h : (featureNames st).Nodup) :
    (featureNames (LF.add_feature st n t)).Nodup := by
  unfold LF.add_feature
  split
  · exact h
  · rename_i hna
    have hn : n ∉ featureNames st := fun hmem =>
      hna (mem_featureNames_iff_any.mpr hmem)
    simp only [featureNames, List.map_append, List.map_cons, List.map_nil]
    rw [List.nodup_append]
    exact ⟨h, List.nodup_singleton n, by
      intro a ha hb
      rw [List.mem_singleton] at hb
      exact hn (hb ▸ ha)⟩

theorem mem_featureNames_add_feature {st : List LF.FeatureDef} {x : String} (n t : String)
    (h : x ∈ featureNames st) :
    x ∈ featureNames (LF.add_feature st n t) := by
  unfold LF.add_feature
  split
  · exact h
  · simp only [featureNames, List.map_append]
    exact List.mem_append_left _ h

theorem self_mem_featureNames_add_feature (st : List LF.FeatureDef) (n t : String) :
    n ∈ featureNames (LF.add_feature st n t) := by
  unfold LF.add_feature
  split
  · rename_i hna
    exact mem_featureNames_iff_any.mp hna
  · simp [featureNames]

theorem featureNames_featureMatchStep_nodup (rid et : String)
    {st : List LF.FeatureDef} (m : String × String)
    (h : (featureNames st).Nodup) :
    (featureNames (LF.featureMatchStep rid et st m)).Nodup := by
  unfold LF.featureMatchStep LF.time_features LF.cohort_features
  split
  · exact featureNames_add_feature_nodup _ _ (featureNames_add_feature_nodup _ _ h)
  · split
    · exact featureNames_add_feature_nodup _ _ (featureNames_add_feature_nodup _ _ h)
    · split
      · exact h
      · exact featureNames_add_feature_nodup _ _ h

theorem mem_featureNames_featureMatchStep (rid et : String)
    {st : List LF.FeatureDef} {x : String} (m : String × String)
    (h : x ∈ featureNames st) :
    x ∈ featureNames (LF.featureMatchStep rid et st m) := by
  unfold LF.featureMatchStep LF.time_features LF.cohort_features
  split
  · exact mem_featureNames_add_feature _ _ (mem_featureNames_add_feature _ _ h)
  · split
    · exact mem_featureNames_add_feature _ _ (mem_featureNames_add_feature _ _ h)
    · split
      · exact h
      · exact mem_featureNames_add_feature _ _ h

theorem featureNames_foldl_nodup (rid et : String) :
    ∀ (ms : List (String × String)) (st : List LF.FeatureDef),
      (featureNames st).Nodup →
      (featureNames (ms.foldl (LF.featureMatchStep rid et) st)).Nodup
  | [], _, h => h
  | m :: ms, _, h =>
      featureNames_foldl_nodup rid et ms _
        (featureNames_featureMatchStep_nodup rid et m h)

theorem mem_featureNames_foldl (rid et : String) {x : String} :
    ∀ (ms : List (String × String)) (st : List LF.FeatureDef),
      x ∈ featureNames st →
      x ∈ featureNames (ms.foldl (LF.featureMatchStep rid et) st)
  | [], _, h => h
  | m :: ms, _, h =>
      mem_featureNames_foldl rid et ms _
        (mem_featureNames_featureMatchStep rid et m h)

/-! ## Claim theorems -/

/-- **C10.** For every input (the regex extraction outcomes ranging over all
possibilities, hence over every input string including the empty one),
`parse_feature_descriptions` returns a triple whose feature-definition list
has pairwise-distinct `FeatureName` entries and contains both the returned
record identifier and the returned event-time feature name. -/
theorem parse_feature_descriptions_invariants (tt : Bool) (idM etM : Option String)
    (m1 m2 : List (String × String)) :
    (featureNames (LF.parse_feature_descriptions tt idM etM m1 m2).2.2).Nodup ∧
    (LF.parse_feature_descriptions tt idM etM m1 m2).1 ∈
      featureNames (LF.parse_feature_descriptions tt idM etM m1 m2).2.2 ∧
    (LF.parse_feature_descriptions tt idM etM m1 m2).2.1 ∈
      featureNames (LF.parse_feature_descriptions tt idM etM m1 m2).2.2 := by
  cases tt with
  | false =>
      refine ⟨?_, ?_, ?_⟩ <;> simp [LF.parse_feature_descriptions, featureNames]
  | true =>
      unfold LF.parse_feature_descriptions
      simp only [Bool.not_true, Bool.false_eq_true, if_false]
      set rid := idM.getD "record_id" with hrid
      set et := etM.getD "event_time" with het
      set st0 := LF.add_feature (LF.add_feature [] rid "String") et "String" with hst0
      have hn0 : (featureNames st0).Nodup := by
        rw [hst0]
        exact featureNames_add_feature_nodup _ _
          (featureNames_add_feature_nodup _ _ (by simp [featureNames]))
      have hrid0 : rid ∈ featureNames st0 := by
        rw [hst0]
        exact mem_featureNames_add_feature _ _
          (self_mem_featureNames_add_feature _ _ _)
      have het0 : et ∈ featureNames st0 := by
        rw [hst0]
        exact self_mem_featureNames_add_feature _ _ _
      refine ⟨?_, ?_, ?_⟩
      · exact featureNames_foldl_nodup rid et m2 _
          (featureNames_foldl_nodup rid et m1 _ hn0)
      · exact mem_featureNames_foldl rid et m2 _
          (mem_featureNames_foldl rid et m1 _ hrid0)
      · exact mem_featureNames_foldl rid et m2 _
          (mem_featureNames_foldl rid et m1 _ het0)

/-- **C9.** For every parameter map with a truthy `project_name` and action
`'delete'`, `manage_project_lifecycle` returns the fixed 403
deletion-disabled response and issues no external call, leaving the
referenced project untouched. -/
theorem manage_project_lifecycle_delete_refused (w : LF.LifecycleWorld)
    (params : ParamMap)
    (hpn : (pget params "project_name").truthy = true)
    (hact : pget params "action" = Json.str "delete") :
    LF.manage_project_lifecycle w params =
      (Json.obj [("statusCode", .num 403),
        ("body", .obj [
          ("error", .str "Project deletion is disabled"),
          ("message", .str ("Deletion of project \"" ++ pyStr (pget params "project_name") ++
            "\" is not allowed for security reasons")),
          ("project_name", pget params "project_name"),
          ("suggestion", .str "Use AWS Console to manually delete projects if needed")])],
       []) := by
  unfold LF.manage_project_lifecycle
  rw [hact]
  simp [hpn, (by decide : Json.truthy (Json.str "delete") = true),
    (by decide : (Json.str "delete" == Json.str "describe") = false),
    (by decide : (Json.str "delete" == Json.str "delete") = true)]

/-- Witness for C9 at a concrete parameter map. -/
theorem manage_project_lifecycle_delete_refused_witness :
    (pget [(Json.str "project_name", Json.str "my-project"),
           (Json.str "action", Json.str "delete")] "project_name").truthy = true ∧
    LF.manage_project_lifecycle ⟨.error "boom"⟩
      [(Json.str "project_name", Json.str "my-project"),
       (Json.str "action", Json.str "delete")] =
      (Json.obj [("statusCode", .num 403),
        ("body", .obj [
          ("error", .str "Project deletion is disabled"),
          ("message", .str "Deletion of project \"my-project\" is not allowed for security reasons"),
          ("project_name", .str "my-project"),
          ("suggestion", .str "Use AWS Console to manually delete projects if needed")])],
       []) := by
  refine ⟨by decide, ?_⟩
  have h := manage_project_lifecycle_delete_refused ⟨.error "boom"⟩
    [(Json.str "project_name", Json.str "my-project"),
     (Json.str "action", Json.str "delete")] (by decide) (by decide)
  simpa [pget, dictGet, pyStr, pyRepr] using h

/-- **C8 (amended).** The `lambda_function.py` / `mlops-agent.py` extractor
never lets an exception escape: its `try` body may raise internally (for
example on a non-dict event or a malformed `queryStringParameters` value),
but the catch-all handler returns the partially built map, so the function
always returns a (possibly empty or partial) parameter map. -/
theorem extractor_never_raises (e : Json) :
    ∃ m, LF.extract_parameters_from_request_body e = PyResult.ok m := by
  unfold LF.extract_parameters_from_request_body pyTry
  cases LF.extractBody e with
  | ok m => exact ⟨m, rfl⟩
  | exn m msg => exact ⟨m, rfl⟩

/-- **C8 (counterexample).** The `mlops-project.py` extractor has no
`try/except` and calls `properties.items()`; on an event whose
`requestBody.content["application/json"].properties` is an array — the very
shape the other two source files produce and consume — it raises
`AttributeError`, so extraction does not "never raise". -/
theorem extractor_raises_mlops_project :
    MP.extract_parameters_from_request_body
      (.obj [("requestBody", .obj [("content", .obj [("application/json",
        .obj [("properties", .arr [])])])])]) =
    PyResult.exn [] "AttributeError: object has no attribute items" := by
  rfl

/-- **C2 (counterexample).** A handler exception with text `boom` on a
registered path is surfaced to the caller as status 500 with body
`"Error: boom"`: the client-visible body contains the internal exception
text verbatim and no correlation identifier is generated, contradicting the
claimed information-disclosure boundary. -/
theorem error_boundary_counterexample :
    LF.lambda_handler (fun _ _ => .error "boom")
      (.obj [("actionGroup", .str "g"), ("apiPath", .str "/create-mlops-project"),
             ("httpMethod", .str "POST")]) =
      .ok (LF.envelope (.str "g") (.str "/create-mlops-project") (.str "POST")
        (.num 500) "\"Error: boom\"") ∧
    strContains "\"Error: boom\"" "boom" = true := by
  exact ⟨rfl, by decide⟩

/-- **C2 (amended).** For every event whose matched handler raises, the
dispatcher's error boundary returns status 500 with the body
`Error: {str(e)}` — the exception text is embedded verbatim in the
client-visible body, and no correlation identifier exists anywhere in the
code. -/
theorem error_boundary_exposes_exception (rh : RouteHandler)
    (fs : List (String × Json)) (p msg : String)
    (hfind : LF.knownPaths.find?
      (fun q => (Json.lookup fs "apiPath").getD (.str "") == Json.str q) = some p)
    (hrh : rh p (LF.extractMap (.obj fs)) = .error msg) :
    LF.lambda_handler rh (.obj fs) =
      .ok (LF.envelope ((Json.lookup fs "actionGroup").getD (.str ""))
        ((Json.lookup fs "apiPath").getD (.str ""))
        ((Json.lookup fs "httpMethod").getD (.str ""))
        (.num 500) (jsonDumps (.str ("Error: " ++ msg)))) := by
  unfold LF.lambda_handler LF.dispatch
  dsimp only
  rw [hfind]
  dsimp only
  rw [hrh]
  simp [LF.envelope, Json.lookup]

/-- Witness for the amended C2 at a concrete raising handler. -/
theorem error_boundary_exposes_exception_witness :
    LF.knownPaths.find?
      (fun q => (Json.lookup [(("apiPath" : String), Json.str "/create-model-group")]
        "apiPath").getD (.str "") == Json.str q) = some "/create-model-group" ∧
    LF.lambda_handler (fun _ _ => .error "secret detail")
      (.obj [("apiPath", .str "/create-model-group")]) =
      .ok (LF.envelope (.str "") (.str "/create-model-group") (.str "")
        (.num 500) (jsonDumps (.str "Error: secret detail"))) := by
  refine ⟨by decide, ?_⟩
  exact error_boundary_exposes_exception (fun _ _ => .error "secret detail")
    [(("apiPath" : String), Json.str "/create-model-group")]
    "/create-model-group" "secret detail" (by decide) rfl

/-- **C1 (amended).** In `lambda_function.py` (and identically
`mlops-agent.py`), for every dict event and every handler outcome whose
normal returns are dicts — every handler in the file returns a dict literal
— `lambda_handler` returns the fixed envelope: `messageVersion "1.0"`,
echoed `actionGroup`/`apiPath`/`httpMethod`, `httpStatusCode` equal to the
response's `statusCode` defaulting to 200, and the JSON-stringified
response body; no exception escapes. -/
theorem dispatcher_always_envelopes (rh : RouteHandler) (fs : List (String × Json))
    (hrh : ∀ p m r, rh p m = .ok r → r.isObj = true) :
    ∃ rs : List (String × Json),
      LF.dispatch rh ((Json.lookup fs "apiPath").getD (.str ""))
        (LF.extractMap (.obj fs)) = .obj rs ∧
      LF.lambda_handler rh (.obj fs) =
        .ok (LF.envelope ((Json.lookup fs "actionGroup").getD (.str ""))
          ((Json.lookup fs "apiPath").getD (.str ""))
          ((Json.lookup fs "httpMethod").getD (.str ""))
          ((Json.lookup rs "statusCode").getD (.num 200))
          (jsonDumps ((Json.lookup rs "body").getD (.obj rs)))) := by
  have hobj : ∃ rs : List (String × Json),
      LF.dispatch rh ((Json.lookup fs "apiPath").getD (.str ""))
        (LF.extractMap (.obj fs)) = .obj rs := by
    unfold LF.dispatch
    cases hf : List.find? (fun q =>
        (Json.lookup fs "apiPath").getD (.str "") == Json.str q) LF.knownPaths with
    | none => exact ⟨_, rfl⟩
    | some p =>
        dsimp only
        cases hr : rh p (LF.extractMap (.obj fs)) with
        | error msg => exact ⟨_, rfl⟩
        | ok r =>
            have hro := hrh p _ r hr
            cases r with
            | obj rs => exact ⟨rs, rfl⟩
            | null => simp [Json.isObj] at hro
            | bool b => simp [Json.isObj] at hro
            | num n => simp [Json.isObj] at hro
            | str s => simp [Json.isObj] at hro
            | arr xs => simp [Json.isObj] at hro
  obtain ⟨rs, hrs⟩ := hobj
  refine ⟨rs, hrs, ?_⟩
  unfold LF.lambda_handler
  dsimp only
  rw [hrs]

/-- Witness for the amended C1 at a concrete event and handler. -/
theorem dispatcher_always_envelopes_witness :
    (∀ p m r, (fun (_ : String) (_ : ParamMap) =>
        (Except.ok (Json.obj [("statusCode", Json.num 200), ("body", Json.str "ok")]) :
          Except String Json)) p m = .ok r → r.isObj = true) ∧
    (∃ rs : List (String × Json),
      LF.dispatch (fun _ _ => .ok (.obj [("statusCode", .num 200), ("body", .str "ok")]))
        ((Json.lookup [(("actionGroup" : String), Json.str "ag"),
          ("apiPath", Json.str "/list-mlops-templates"),
          ("httpMethod", Json.str "GET")] "apiPath").getD (.str ""))
        (LF.extractMap (.obj [("actionGroup", .str "ag"),
          ("apiPath", .str "/list-mlops-templates"), ("httpMethod", .str "GET")])) = .obj rs ∧
      LF.lambda_handler (fun _ _ => .ok (.obj [("statusCode", .num 200), ("body", .str "ok")]))
        (.obj [("actionGroup", .str "ag"), ("apiPath", .str "/list-mlops-templates"),
               ("httpMethod", .str "GET")]) =
        .ok (LF.envelope (.str "ag") (.str "/list-mlops-templates") (.str "GET")
          ((Json.lookup rs "statusCode").getD (.num 200))
          (jsonDumps ((Json.lookup rs "body").getD (.obj rs))))) := by
  have h0 : ∀ p m r, (fun (_ : String) (_ : ParamMap) =>
      (Except.ok (Json.obj [("statusCode", Json.num 200), ("body", Json.str "ok")]) :
        Except String Json)) p m = .ok r → r.isObj = true := by
    intro p m r h
    cases h
    rfl
  exact ⟨h0, dispatcher_always_envelopes _ _ h0⟩

/-- **C1 (counterexample).** `mlops-project.py`'s `lambda_handler` violates
the claim twice over: an extractor exception escapes to the invoking
runtime (the extractor is called before the `try`), and a routed result is
returned raw — the unknown-path response carries no `messageVersion` and no
envelope at all. -/
theorem mlops_project_handler_breaks_envelope :
    MP.lambda_handler (fun _ _ => .ok (.obj []))
      (.obj [("apiPath", .str "/create-mlops-project"),
             ("requestBody", .obj [("content", .obj [("application/json",
               .obj [("properties", .arr [])])])])]) =
      .exn .null "AttributeError: object has no attribute items" ∧
    MP.lambda_handler (fun _ _ => .ok (.obj []))
      (.obj [("apiPath", .str "/does-not-exist")]) =
      .ok (.obj [("statusCode", .num 400),
                 ("body", .str "Unknown API path: /does-not-exist")]) ∧
    jget (.obj [("statusCode", .num 400),
                ("body", .str "Unknown API path: /does-not-exist")]) "messageVersion" =
      none := by
  exact ⟨rfl, rfl, rfl⟩

/-- **C5.** Whenever one or more of `create_mlops_project`'s five required
parameters are absent or empty, the handler returns status 400 with a body
listing every missing parameter name — not just the first — and issues no
external call at all. -/
theorem missing_params_aggregated (w : LF.ProjectWorld) (params : ParamMap)
    (h : LF.requiredParams.all (fun p => (pget params p).truthy) = false) :
    (LF.create_mlops_project w params).2 = [] ∧
    jget (LF.create_mlops_project w params).1 "statusCode" = some (.num 400) ∧
    ∃ body : String,
      jget (LF.create_mlops_project w params).1 "body" = some (.str body) ∧
      ∀ p ∈ LF.requiredParams, (pget params p).truthy = false →
        strContains body p = true := by
  have hred : LF.create_mlops_project w params =
      (Json.obj [("statusCode", Json.num 400),
        ("body", Json.str ("Missing required parameters: " ++
          pyStrList (LF.missingOf params) ++
          ". Available params: " ++ pyRepr (.arr (dictKeys params))))], []) := by
    unfold LF.create_mlops_project
    rw [h]
    rfl
  rw [hred]
  refine ⟨rfl, rfl, ?_⟩
  refine ⟨"Missing required parameters: " ++ pyStrList (LF.missingOf params) ++
    ". Available params: " ++ pyRepr (.arr (dictKeys params)), rfl, ?_⟩
  intro p hp hpt
  have hmem : p ∈ LF.missingOf params :=
    List.mem_filter.mpr ⟨hp, by simp [hpt]⟩
  obtain ⟨a, b, hab⟩ := quoteJoin_mem_split hmem
  apply strContains_of_split
  refine ⟨"Missing required parameters: " ++ "[" ++ a,
    b ++ "]" ++ (". Available params: " ++ pyRepr (.arr (dictKeys params))), ?_⟩
  unfold pyStrList
  rw [hab]
  simp only [String.append_assoc]

/-- Witness for C5: scenario B, a parameter map for `/create-mlops-project`
missing `connection_arn`. -/
theorem missing_params_aggregated_witness :
    LF.requiredParams.all (fun p => (pget
      [(Json.str "project_name", Json.str "demo"),
       (Json.str "github_repo_build", Json.str "build-repo"),
       (Json.str "github_repo_deploy", Json.str "deploy-repo"),
       (Json.str "github_username", Json.str "octo")] p).truthy) = false ∧
    ((LF.create_mlops_project ⟨(none, none), .error "x", fun _ => .error "x", 0⟩
      [(Json.str "project_name", Json.str "demo"),
       (Json.str "github_repo_build", Json.str "build-repo"),
       (Json.str "github_repo_deploy", Json.str "deploy-repo"),
       (Json.str "github_username", Json.str "octo")]).2 = [] ∧
     jget (LF.create_mlops_project ⟨(none, none), .error "x", fun _ => .error "x", 0⟩
      [(Json.str "project_name", Json.str "demo"),
       (Json.str "github_repo_build", Json.str "build-repo"),
       (Json.str "github_repo_deploy", Json.str "deploy-repo"),
       (Json.str "github_username", Json.str "octo")]).1 "statusCode" = some (.num 400) ∧
     ∃ body : String,
       jget (LF.create_mlops_project ⟨(none, none), .error "x", fun _ => .error "x", 0⟩
        [(Json.str "project_name", Json.str "demo"),
         (Json.str "github_repo_build", Json.str "build-repo"),
         (Json.str "github_repo_deploy", Json.str "deploy-repo"),
         (Json.str "github_username", Json.str "octo")]).1 "body" = some (.str body) ∧
       ∀ p ∈ LF.requiredParams, (pget
        [(Json.str "project_name", Json.str "demo"),
         (Json.str "github_repo_build", Json.str "build-repo"),
         (Json.str "github_repo_deploy", Json.str "deploy-repo"),
         (Json.str "github_username", Json.str "octo")] p).truthy = false →
         strContains body p = true) := by
  refine ⟨by decide, ?_⟩
  exact missing_params_aggregated _ _ (by decide)

/-- **C4 (counterexample).** A parameter map whose five required values are
all present but malformed — an uppercase `project_name`, a `connection_arn`
that is not an ARN, a repository name with no owner — passes the handler's
checks: `create_mlops_project` issues external calls (template discovery,
project creation, status polling) and returns 200, not a validation 400.
No pattern validator exists anywhere in the source. -/
theorem malformed_values_not_validated :
    (LF.create_mlops_project
      ⟨(some "prod-abc123", some "pa-1"), .ok ("arn:aws:sagemaker:us-east-1:123456789012:project/MyProject", "p-xyz"),
       fun _ => .ok "CreateCompleted", 1700000000⟩
      [(Json.str "project_name", Json.str "MyProject"),
       (Json.str "github_repo_build", Json.str "Repo"),
       (Json.str "github_repo_deploy", Json.str "r2"),
       (Json.str "connection_arn", Json.str "not-an-arn"),
       (Json.str "github_username", Json.str "u")]).2 =
      [LF.Call.findProduct, LF.Call.createProject,
       LF.Call.describeProject 0, LF.Call.describeProject 1] ∧
    jget (LF.create_mlops_project
      ⟨(some "prod-abc123", some "pa-1"), .ok ("arn:aws:sagemaker:us-east-1:123456789012:project/MyProject", "p-xyz"),
       fun _ => .ok "CreateCompleted", 1700000000⟩
      [(Json.str "project_name", Json.str "MyProject"),
       (Json.str "github_repo_build", Json.str "Repo"),
       (Json.str "github_repo_deploy", Json.str "r2"),
       (Json.str "connection_arn", Json.str "not-an-arn"),
       (Json.str "github_username", Json.str "u")]).1 "statusCode" =
      some (.num 200) := by
  exact ⟨rfl, rfl⟩

/-- **C4 (amended).** The handler's only input validation is the
presence/emptiness check: whenever all five required parameters are truthy
— well-formed or not — the first external call (Service Catalog template
discovery) is always issued before any further inspection of the values. -/
theorem presence_only_validation (w : LF.ProjectWorld) (params : ParamMap)
    (h : LF.requiredParams.all (fun p => (pget params p).truthy) = true) :
    (LF.create_mlops_project w params).2.head? = some LF.Call.findProduct := by
  unfold LF.create_mlops_project
  rw [h]
  simp only [Bool.not_true, Bool.false_eq_true, if_false]
  by_cases h2 : (!(LF.optTruthy w.find_product.1) || !(LF.optTruthy w.find_product.2)) = true
  · simp only [h2, if_true]
    rfl
  · simp only [Bool.not_eq_true] at h2
    simp only [h2, Bool.false_eq_true, if_false]
    cases w.create_project with
    | error msg => rfl
    | ok pr =>
        cases pr with
        | mk arn pidj =>
            dsimp only
            cases LF.pollAux w.describe_project 0 60 with
            | failed n => rfl
            | brk n => dsimp only; split <;> rfl
            | timeout n => dsimp only; split <;> rfl

/-- Witness for the amended C4 at the malformed-but-present parameter map. -/
theorem presence_only_validation_witness :
    LF.requiredParams.all (fun p => (pget
      [(Json.str "project_name", Json.str "MyProject"),
       (Json.str "github_repo_build", Json.str "Repo"),
       (Json.str "github_repo_deploy", Json.str "r2"),
       (Json.str "connection_arn", Json.str "not-an-arn"),
       (Json.str "github_username", Json.str "u")] p).truthy) = true ∧
    (LF.create_mlops_project
      ⟨(some "prod-abc123", some "pa-1"), .error "AccessDenied",
       fun _ => .error "x", 1700000000⟩
      [(Json.str "project_name", Json.str "MyProject"),
       (Json.str "github_repo_build", Json.str "Repo"),
       (Json.str "github_repo_deploy", Json.str "r2"),
       (Json.str "connection_arn", Json.str "not-an-arn"),
       (Json.str "github_username", Json.str "u")]).2.head? =
      some LF.Call.findProduct := by
  refine ⟨by decide, ?_⟩
  exact presence_only_validation _ _ (by decide)

theorem pollAux_timeout (d : Nat → Except String String)
    (hst : ∀ k s, d k = .ok s → s ≠ "CreateCompleted" ∧ s ≠ "CreateFailed") :
    ∀ (fuel k : Nat), LF.pollAux d k fuel = .timeout (k + fuel)
  | 0, k => by simp [LF.pollAux]
  | fuel + 1, k => by
      cases hd : d k with
      | error m =>
          unfold LF.pollAux
          rw [hd]
          dsimp only
          rw [pollAux_timeout d hst fuel (k + 1),
            show k + 1 + fuel = k + (fuel + 1) from by omega]
      | ok s =>
          have hs := hst k s hd
          unfold LF.pollAux
          rw [hd]
          dsimp only
          rw [if_neg hs.1, if_neg hs.2, pollAux_timeout d hst fuel (k + 1),
            show k + 1 + fuel = k + (fuel + 1) from by omega]

/-- **C6.** When every observed project status is neither `CreateCompleted`
nor `CreateFailed`, the polling loop exhausts its 600-second budget (60
ten-second intervals) and `create_mlops_project` returns the distinct
accepted-pending outcome, status 202 — never the success outcome (200) and
never the failure outcome (500). -/
theorem poller_timeout_returns_202 (w : LF.ProjectWorld) (params : ParamMap)
    (arn pidj : String)
    (hall : LF.requiredParams.all (fun p => (pget params p).truthy) = true)
    (hp1 : LF.optTruthy w.find_product.1 = true)
    (hp2 : LF.optTruthy w.find_product.2 = true)
    (hc : w.create_project = .ok (arn, pidj))
    (hst : ∀ k s, w.describe_project k = .ok s →
      s ≠ "CreateCompleted" ∧ s ≠ "CreateFailed") :
    jget (LF.create_mlops_project w params).1 "statusCode" = some (.num 202) ∧
    jget (LF.create_mlops_project w params).1 "statusCode" ≠ some (.num 200) ∧
    jget (LF.create_mlops_project w params).1 "statusCode" ≠ some (.num 500) := by
  have hmain : jget (LF.create_mlops_project w params).1 "statusCode" = some (.num 202) := by
    unfold LF.create_mlops_project
    rw [hall]
    simp only [Bool.not_true, Bool.false_eq_true, if_false]
    rw [hp1, hp2]
    simp only [Bool.not_true, Bool.or_self, Bool.false_eq_true, if_false]
    rw [hc]
    dsimp only
    rw [pollAux_timeout w.describe_project hst 60 0]
    dsimp only
    cases hd : w.describe_project 60 with
    | ok s =>
        have hs := hst 60 s hd
        dsimp only
        rw [if_pos hs.1]
        rfl
    | error m =>
        dsimp only
        rw [if_pos (by decide : ("Unknown" : String) ≠ "CreateCompleted")]
        rfl
  refine ⟨hmain, ?_, ?_⟩
  · rw [hmain]; intro hcon; cases hcon
  · rw [hmain]; intro hcon; cases hcon

/-- Witness for C6: a world whose status checks always observe `Pending`. -/
theorem poller_timeout_returns_202_witness :
    LF.requiredParams.all (fun p => (pget
      [(Json.str "project_name", Json.str "demo"),
       (Json.str "github_repo_build", Json.str "b"),
       (Json.str "github_repo_deploy", Json.str "d"),
       (Json.str "connection_arn", Json.str "arn:aws:codeconnections:us-east-1:123456789012:connection/abc"),
       (Json.str "github_username", Json.str "octo")] p).truthy) = true ∧
    jget (LF.create_mlops_project
      ⟨(some "prod-abc123", some "pa-1"), .ok ("arn:p", "p-1"),
       fun _ => .ok "Pending", 0⟩
      [(Json.str "project_name", Json.str "demo"),
       (Json.str "github_repo_build", Json.str "b"),
       (Json.str "github_repo_deploy", Json.str "d"),
       (Json.str "connection_arn", Json.str "arn:aws:codeconnections:us-east-1:123456789012:connection/abc"),
       (Json.str "github_username", Json.str "octo")]).1 "statusCode" =
      some (.num 202) := by
  refine ⟨by decide, ?_⟩
  exact (poller_timeout_returns_202
    ⟨(some "prod-abc123", some "pa-1"), .ok ("arn:p", "p-1"),
     fun _ => .ok "Pending", 0⟩
    [(Json.str "project_name", Json.str "demo"),
     (Json.str "github_repo_build", Json.str "b"),
     (Json.str "github_repo_deploy", Json.str "d"),
     (Json.str "connection_arn", Json.str "arn:aws:codeconnections:us-east-1:123456789012:connection/abc"),
     (Json.str "github_username", Json.str "octo")]
    "arn:p" "p-1" (by decide) (by decide) (by decide) rfl
    (fun k s h => by
      injection h with h2
      subst h2
      exact ⟨by decide, by decide⟩)).1

theorem string_data_inj {a b : String} (h : a.data = b.data) : a = b := by
  cases a
  cases b
  exact congrArg String.mk h

theorem string_append_cancel_left {a b c : String} (h : a ++ b = a ++ c) : b = c := by
  apply string_data_inj
  have hd := congrArg String.data h
  rw [String.data_append, String.data_append] at hd
  exact List.append_cancel_left hd

/-- **C7 (counterexample).** On a forbidden existence probe (bucket owned by
another account), `ensure_s3_bucket_exists` in `lambda_function.py` returns
a blocked-by-conflict result carrying FOUR suggested names — the fourth,
`sagemaker-mlflow-{account}`, not derived from the original name — not the
claimed exactly three. -/
theorem bucket_conflict_four_names :
    LF.ensure_s3_bucket_exists
      ⟨.error ⟨some "403", "Forbidden"⟩, .ok (), .ok "123456789012", 1700000000,
       .ok (), .ok (), .ok ()⟩
      "s3://mybucket" =
      (false, "Bucket name conflict: mybucket is owned by another AWS account",
       .obj [("conflict_type", .str "name_taken"),
             ("original_bucket", .str "mybucket"),
             ("suggested_names", .arr [.str "mybucket-123456789012",
               .str "mybucket-1700000000", .str "mlops-123456789012-1700000000",
               .str "sagemaker-mlflow-123456789012"]),
             ("account_id", .str "123456789012")]) ∧
    (LF.suggested_names "mybucket" "123456789012" 1700000000).length = 4 ∧
    ¬ (LF.suggested_names "mybucket" "123456789012" 1700000000).length = 3 := by
  refine ⟨?_, rfl, by decide⟩
  rfl

/-- **C7 (amended).** On a forbidden probe with a resolvable account id,
`mlops-project.py`'s `validate_and_setup_s3_bucket` returns the
blocked-by-conflict outcome whose message embeds exactly three suggested
names derived from the original name, the account id and the timestamp,
pairwise distinct whenever the account id differs from the timestamp
string and none equal to the original; `lambda_function.py`'s
`ensure_s3_bucket_exists` instead builds four suggested names. -/
theorem bucket_conflict_suggestions (w : MP.S3World) (uri : String)
    (he : PyExn) (acct : String)
    (hh : w.head_bucket = .err he)
    (hforb : (strContains he.msg "Forbidden" || strContains he.msg "403") = true)
    (hacct : w.account_id = .ok acct)
    (hne : acct ≠ toString w.now)
    (huri : strStartsWith uri "s3://" = true)
    (hbn : ((strSplitOn (strDrop uri 5) "/").headD "").isEmpty = false) :
    MP.validate_and_setup_s3_bucket w uri =
      (false, "Bucket '" ++ ((strSplitOn (strDrop uri 5) "/").headD "") ++
        "' is owned by another account. " ++ "Try one of these alternatives: " ++
        strJoin ", " (MP.suggested_names ((strSplitOn (strDrop uri 5) "/").headD "")
          acct w.now), none) ∧
    (MP.suggested_names ((strSplitOn (strDrop uri 5) "/").headD "") acct w.now).length = 3 ∧
    (MP.suggested_names ((strSplitOn (strDrop uri 5) "/").headD "") acct w.now).Pairwise
      (fun a b => a ≠ b) ∧
    (∀ nm ∈ MP.suggested_names ((strSplitOn (strDrop uri 5) "/").headD "") acct w.now,
      nm ≠ (strSplitOn (strDrop uri 5) "/").headD "") ∧
    (∀ nm ∈ MP.suggested_names ((strSplitOn (strDrop uri 5) "/").headD "") acct w.now,
      strContains ("Bucket '" ++ ((strSplitOn (strDrop uri 5) "/").headD "") ++
        "' is owned by another account. " ++ "Try one of these alternatives: " ++
        strJoin ", " (MP.suggested_names ((strSplitOn (strDrop uri 5) "/").headD "")
          acct w.now)) nm = true) ∧
    (LF.suggested_names ((strSplitOn (strDrop uri 5) "/").headD "") acct w.now).length = 4 := by
  set bn := (strSplitOn (strDrop uri 5) "/").headD "" with hbndef
  set ts := toString w.now with htsdef
  have hmsg : MP.validate_and_setup_s3_bucket w uri =
      (false, "Bucket '" ++ bn ++ "' is owned by another account. " ++
        "Try one of these alternatives: " ++
        strJoin ", " (MP.suggested_names bn acct w.now), none) := by
    unfold MP.validate_and_setup_s3_bucket
    rw [huri]
    simp only [Bool.not_true, Bool.false_eq_true, if_false]
    rw [← hbndef, hbn]
    simp only [Bool.false_eq_true, if_false]
    rw [hh]
    dsimp only
    rw [if_pos hforb, hacct]
  have hlen1 : ("-" ++ acct).length = 1 + acct.length := by
    rw [String.length_append]
    rfl
  have hn1 : (bn ++ "-" ++ acct).length = bn.length + 1 + acct.length := by
    rw [String.length_append, String.length_append]
    rfl
  have hn2 : (bn ++ "-" ++ ts).length = bn.length + 1 + ts.length := by
    rw [String.length_append, String.length_append]
    rfl
  have hn3 : (bn ++ "-" ++ acct ++ "-" ++ ts).length =
      bn.length + 1 + acct.length + 1 + ts.length := by
    rw [String.length_append, String.length_append, String.length_append,
      String.length_append]
    rfl
  have h12 : bn ++ "-" ++ acct ≠ bn ++ "-" ++ ts := by
    intro heq
    rw [String.append_assoc, String.append_assoc] at heq
    exact hne (string_append_cancel_left (string_append_cancel_left heq))
  have h13 : bn ++ "-" ++ acct ≠ bn ++ "-" ++ acct ++ "-" ++ ts := by
    intro heq
    have := congrArg String.length heq
    rw [hn1, hn3] at this
    omega
  have h23 : bn ++ "-" ++ ts ≠ bn ++ "-" ++ acct ++ "-" ++ ts := by
    intro heq
    have := congrArg String.length heq
    rw [hn2, hn3] at this
    omega
  have hne1 : bn ++ "-" ++ acct ≠ bn := by
    intro heq
    have := congrArg String.length heq
    rw [hn1] at this
    omega
  have hne2 : bn ++ "-" ++ ts ≠ bn := by
    intro heq
    have := congrArg String.length heq
    rw [hn2] at this
    omega
  have hne3 : bn ++ "-" ++ acct ++ "-" ++ ts ≠ bn := by
    intro heq
    have := congrArg String.length heq
    rw [hn3] at this
    omega
  refine ⟨hmsg, rfl, ?_, ?_, ?_, rfl⟩
  · show List.Pairwise (fun a b => a ≠ b)
      [bn ++ "-" ++ acct, bn ++ "-" ++ ts, bn ++ "-" ++ acct ++ "-" ++ ts]
    refine .cons ?_ (.cons ?_ (.cons ?_ .nil))
    · intro b hb
      rcases List.mem_cons.mp hb with rfl | hb
      · exact h12
      rcases List.mem_cons.mp hb with rfl | hb
      · exact h13
      · cases hb
    · intro b hb
      rcases List.mem_cons.mp hb with rfl | hb
      · exact h23
      · cases hb
    · intro b hb
      cases hb
  · intro nm hnm
    have hnm' : nm ∈ [bn ++ "-" ++ acct, bn ++ "-" ++ ts,
        bn ++ "-" ++ acct ++ "-" ++ ts] := hnm
    rcases List.mem_cons.mp hnm' with rfl | hnm'
    · exact hne1
    rcases List.mem_cons.mp hnm' with rfl | hnm'
    · exact hne2
    rcases List.mem_cons.mp hnm' with rfl | hnm'
    · exact hne3
    · cases hnm'
  · intro nm hnm
    obtain ⟨a, b, hab⟩ := strJoin_mem_split ", " hnm
    apply strContains_of_split
    refine ⟨"Bucket '" ++ bn ++ "' is owned by another account. " ++
      "Try one of these alternatives: " ++ a, b, ?_⟩
    rw [hab]
    simp only [String.append_assoc]

/-- Witness for the amended C7 at a concrete forbidden-probe world. -/
theorem bucket_conflict_suggestions_witness :
    (stringS3WitnessWorld.head_bucket = .err ⟨none, "403 Forbidden"⟩ ∧
      (strContains ("403 Forbidden" : String) "Forbidden" ||
        strContains ("403 Forbidden" : String) "403") = true ∧
      ("123456789012" : String) ≠ toString stringS3WitnessWorld.now) ∧
    MP.validate_and_setup_s3_bucket stringS3WitnessWorld "s3://mybucket" =
      (false, "Bucket '" ++ ("mybucket" : String) ++
        "' is owned by another account. " ++ "Try one of these alternatives: " ++
        strJoin ", " (MP.suggested_names "mybucket" "123456789012" 7), none) ∧
    (MP.suggested_names "mybucket" "123456789012" 7).Pairwise (fun a b => a ≠ b) := by
  have h := bucket_conflict_suggestions stringS3WitnessWorld "s3://mybucket"
    ⟨none, "403 Forbidden"⟩ "123456789012" rfl (by decide) rfl (by decide)
    (by decide) (by decide)
  exact ⟨⟨rfl, by decide, by decide⟩, h.1, h.2.2.1⟩

theorem foldl_arrayPropStep :
    ∀ (xs : List (String × Json)) (m0 : ParamMap),
      (xs.map mkNV).foldl arrayPropStep (.ok m0) = .ok (ovFold xs m0)
  | [], m0 => rfl
  | (a, v) :: xs, m0 => by
      have hstep : arrayPropStep (.ok m0) (mkNV (a, v)) =
          .ok (dictSet m0 (.str a) v) := rfl
      rw [List.map_cons, List.foldl_cons, hstep]
      exact foldl_arrayPropStep xs (dictSet m0 (.str a) v)

theorem foldl_bodyPropStep :
    ∀ (xs : List (String × Json)) (m0 : ParamMap),
      (xs.map mkNV).foldl LF.bodyPropStep (.ok m0) = .ok (skipFold xs m0)
  | [], m0 => rfl
  | (b, v) :: xs, m0 => by
      have hstep : LF.bodyPropStep (.ok m0) (mkNV (b, v)) =
          .ok (if m0.any (fun q => q.1 == Json.str b) then m0
            else dictSet m0 (.str b) v) := by
        cases h : m0.any (fun q => q.1 == Json.str b) <;>
          simp [LF.bodyPropStep, mkNV, pyBind, Json.lookup, Json.hashable, h]
      have hskip : skipFold ((b, v) :: xs) m0 =
          skipFold xs (if m0.any (fun q => q.1 == Json.str b) then m0
            else dictSet m0 (.str b) v) := rfl
      rw [List.map_cons, List.foldl_cons, hstep, hskip]
      exact foldl_bodyPropStep xs _

theorem paramsArrayStep_mkEvent (ps bs qs : List (String × Json)) (m0 : ParamMap) :
    paramsArrayStep (mkEventFields ps bs qs) m0 = .ok (ovFold ps m0) := by
  have h0 : paramsArrayStep (mkEventFields ps bs qs) m0 =
      (ps.map mkNV).foldl arrayPropStep (.ok m0) := rfl
  rw [h0, foldl_arrayPropStep]

theorem requestBodyStep_mkEvent (ps bs qs : List (String × Json)) (m0 : ParamMap) :
    LF.requestBodyStep (mkEventFields ps bs qs) m0 = .ok (skipFold bs m0) := by
  have h0 : LF.requestBodyStep (mkEventFields ps bs qs) m0 =
      (bs.map mkNV).foldl LF.bodyPropStep (.ok m0) := rfl
  rw [h0, foldl_bodyPropStep]

theorem queryStringStep_mkEvent (ps bs qs : List (String × Json)) (m0 : ParamMap) :
    LF.queryStringStep (mkEventFields ps bs qs) m0 = .ok (ovFold qs m0) := by
  cases qs with
  | nil => rfl
  | cons q qs' => rfl

theorem extractBody_mkEvent (ps bs qs : List (String × Json)) :
    LF.extractBody (mkEvent ps bs qs) = .ok (ovFold qs (skipFold bs (ovFold ps []))) := by
  have h0 : LF.extractBody (mkEvent ps bs qs) =
      pyBind (paramsArrayStep (mkEventFields ps bs qs) [])
        (fun m1 => pyBind (LF.requestBodyStep (mkEventFields ps bs qs) m1)
          (fun m2 => LF.queryStringStep (mkEventFields ps bs qs) m2)) := rfl
  rw [h0, paramsArrayStep_mkEvent]
  have h1 : pyBind (PyResult.ok (ovFold ps []))
      (fun m1 => pyBind (LF.requestBodyStep (mkEventFields ps bs qs) m1)
        (fun m2 => LF.queryStringStep (mkEventFields ps bs qs) m2)) =
      pyBind (LF.requestBodyStep (mkEventFields ps bs qs) (ovFold ps []))
        (fun m2 => LF.queryStringStep (mkEventFields ps bs qs) m2) := rfl
  rw [h1, requestBodyStep_mkEvent]
  have h2 : pyBind (PyResult.ok (skipFold bs (ovFold ps [])))
      (fun m2 => LF.queryStringStep (mkEventFields ps bs qs) m2) =
      LF.queryStringStep (mkEventFields ps bs qs) (skipFold bs (ovFold ps [])) := rfl
  rw [h2, queryStringStep_mkEvent]

/-- **C3 (counterexample).** An event carrying the key `k` in all three
sources — `a` in the parameters array, `b` in the request-body properties,
`q` in the query string — extracts to the binding `k ↦ q`: the value set by
the claimed highest-precedence array form IS overwritten by the claimed
lowest-precedence query form, because the extractor applies
`params.update(queryStringParameters)` last. -/
theorem extractor_precedence_counterexample :
    LF.extract_parameters_from_request_body
      (mkEvent [("k", .str "a")] [("k", .str "b")] [("k", .str "q")]) =
      .ok [(.str "k", .str "q")] ∧
    Json.str "q" ≠ Json.str "a" := by
  exact ⟨rfl, by decide⟩

/-- **C3 (amended).** For every event presenting all three parameter shapes
simultaneously (each source with distinct keys), the extractor binds each
key exactly once, no key is lost, and the effective precedence is:
query-string wins over the parameters array, which wins over the
request-body properties — the array form wins over the body form (the body
loop skips existing keys), but the query form is overwrite-merged last and
wins over both. -/
theorem extractor_precedence (ps bs qs : List (String × Json))
    (hps : (ps.map Prod.fst).Nodup) (hqs : (qs.map Prod.fst).Nodup)
    (k : String) :
    LF.extract_parameters_from_request_body (mkEvent ps bs qs) =
      .ok (ovFold qs (skipFold bs (ovFold ps []))) ∧
    dictGet (ovFold qs (skipFold bs (ovFold ps []))) (.str k) =
      (match Json.lookup qs k with
       | some v => some v
       | none =>
         match Json.lookup ps k with
         | some v => some v
         | none => Json.lookup bs k) := by
  constructor
  · have h0 : LF.extract_parameters_from_request_body (mkEvent ps bs qs) =
        pyTry (LF.extractBody (mkEvent ps bs qs)) (fun st _ => .ok st) := rfl
    rw [h0, extractBody_mkEvent]
    rfl
  · rw [dictGet_ovFold k qs _ hqs]
    cases hq : Json.lookup qs k with
    | some v => rfl
    | none =>
        rw [dictGet_skipFold k bs _, dictGet_ovFold k ps _ hps]
        cases hp : Json.lookup ps k with
        | some v => rfl
        | none =>
            have hnil : dictGet ([] : ParamMap) (.str k) = none := rfl
            rw [hnil]

/-- Witness for the amended C3 at the three-source overlapping-keys event. -/
theorem extractor_precedence_witness :
    ((([("k", Json.str "a"), ("x", Json.str "ax")]).map Prod.fst).Nodup ∧
      (([("k", Json.str "q")] : List (String × Json)).map Prod.fst).Nodup) ∧
    LF.extract_parameters_from_request_body
      (mkEvent [("k", .str "a"), ("x", .str "ax")] [("k", .str "b"), ("y", .str "by")]
        [("k", .str "q")]) =
      .ok (ovFold [("k", Json.str "q")]
        (skipFold [("k", Json.str "b"), ("y", Json.str "by")]
          (ovFold [("k", Json.str "a"), ("x", Json.str "ax")] []))) ∧
    dictGet (ovFold [("k", Json.str "q")]
        (skipFold [("k", Json.str "b"), ("y", Json.str "by")]
          (ovFold [("k", Json.str "a"), ("x", Json.str "ax")] []))) (.str "k") =
      some (Json.str "q") := by
  have h := extractor_precedence [("k", .str "a"), ("x", .str "ax")]
    [("k", .str "b"), ("y", .str "by")] [("k", .str "q")]
    (by decide) (by decide) "k"
  exact ⟨⟨by decide, by decide⟩, h.1, h.2⟩

end MLOps
